import Mathlib

/-!
Verification of the NeuroSync orchestration gateway against its
natural-language specification.

The Python sources are shallowly embedded: pure functions become Lean
functions over `List Char` / `String` / `ℚ`; the relational store becomes an
explicit `Store` state threaded through the memory-manager operations;
external library primitives (the sentence-embedding model, the pgvector
cosine-distance operator, the AES block cipher keystream/tag, HMAC-SHA256 and
the JSON codec) are taken as explicit function parameters, since their
internals live outside this repository.  Floating-point arithmetic is
modelled exactly over `ℚ`, with Python's banker's rounding (`round(x, n)`)
embedded as `pyRound`.
-/

/-! ## Basic string utilities (models of Python `str` operations) -/

/-- Model of Python `round(x, p)`: round half to even at `p` decimal digits,
over exact rationals. -/
def roundHalfEven (x : ℚ) : ℤ :=
  let n : ℤ := ⌊x⌋
  let f : ℚ := x - (n : ℚ)
  if f < 1/2 then n
  else if 1/2 < f then n + 1
  else if n % 2 = 0 then n else n + 1

/-- Definition `pyRound x p` models Python `round(x, p)` over exact rationals. -/
def pyRound (x : ℚ) (p : ℕ) : ℚ :=
  (roundHalfEven (x * (10 : ℚ) ^ p) : ℚ) / (10 : ℚ) ^ p

/-- Helper for `countWords`: `inWord` records whether the previous character
belonged to a word, so each maximal non-whitespace run is counted once. -/
def countWordsAux : Bool → List Char → ℕ
  | _, [] => 0
  | inWord, c :: cs =>
      if c.isWhitespace then countWordsAux false cs
      else (if inWord then 0 else 1) + countWordsAux true cs

/-- Model of `len(s.split())`: the number of maximal runs of non-whitespace
characters (Python `str.split()` with no separator). -/
def countWords (l : List Char) : ℕ := countWordsAux false l

/-- Model of the Python substring test `needle in hay`. -/
def containsSub (n : List Char) : List Char → Bool
  | [] => n.isEmpty
  | c :: cs => n.isPrefixOf (c :: cs) || containsSub n cs

/-- Model of `s.lower()` (ASCII case folding, as used by the scorer). -/
def lowerStr (s : List Char) : List Char := s.map Char.toLower

/-! ## Complexity scorer (src/backend/app/core/scorer.py) -/

namespace ComplexityScorer

/-- The factor map computed by `ComplexityScorer.score` (Python `factors` dict). -/
structure Factors where
  token_count : ℚ
  code_keywords : ℚ
  research_markers : ℚ
  multimodal : ℚ
  context_length : ℚ
deriving DecidableEq, Repr

/-- The `WEIGHTS` dict from the source. -/
def WEIGHTS : List (String × ℚ) :=
  [("token_count", 30/100), ("code_keywords", 25/100),
   ("research_markers", 20/100), ("multimodal", 15/100),
   ("context_length", 10/100)]

/-- Dictionary lookup `factors[factor]` for the fixed factor names. -/
def Factors.get (f : Factors) : String → ℚ
  | "token_count" => f.token_count
  | "code_keywords" => f.code_keywords
  | "research_markers" => f.research_markers
  | "multimodal" => f.multimodal
  | "context_length" => f.context_length
  | _ => 0

/-- The `CODE_KEYWORDS` set from the source. -/
def CODE_KEYWORDS : List String :=
  ["function", "class", "def ", "import ", "async ", "await ",
   "const ", "let ", "var ", "return ", "interface ", "type ",
   "struct ", "enum ", "impl ", "pub ", "fn ", "::",
   "SELECT ", "INSERT ", "UPDATE ", "CREATE ", "ALTER ",
   "docker", "kubernetes", "k8s", "terraform",
   "git ", "commit", "merge", "rebase",
   "debug", "error", "exception", "traceback",
   "refactor", "optimize", "benchmark"]

/-- The `RESEARCH_MARKERS` set from the source. -/
def RESEARCH_MARKERS : List String :=
  ["explain", "analyze", "compare", "contrast", "evaluate",
   "research", "investigate", "summarize", "synthesize",
   "what is", "how does", "why does", "when should",
   "pros and cons", "trade-offs", "tradeoffs",
   "history of", "evolution of", "future of",
   "best practices", "architecture", "design pattern"]

/-- The `CLAUDE_MARKERS` set from the source. -/
def CLAUDE_MARKERS : List String :=
  ["write code", "implement", "create a function",
   "build a", "develop a", "full implementation",
   "complete solution", "production code",
   "unit test", "integration test",
   "api design", "system design",
   "code review", "security audit"]

/-- Model of `sum(1 for kw in kws if kw.lower() in query_lower)`. -/
def countLowered (kws : List String) (queryLower : List Char) : ℕ :=
  (kws.filter (fun kw => containsSub (lowerStr kw.data) queryLower)).length

/-- Model of `sum(1 for cm in CLAUDE_MARKERS if cm in query_lower)` (markers are already
lowercase in the source, so no `.lower()` is applied to them). -/
def claudeCount (queryLower : List Char) : ℕ :=
  (CLAUDE_MARKERS.filter (fun cm => containsSub cm.data queryLower)).length

/-- Result value of `ComplexityScorer.score` (the `reasoning` string of the
source, which no claim depends on, is not carried). -/
structure ComplexityScore where
  score : ℚ
  factors : Factors
  recommendation : String
deriving DecidableEq, Repr

/-- Method `ComplexityScorer._get_recommendation` from the source. -/
def getRecommendation (queryLower : List Char) (score : ℚ) (factors : Factors)
    (threshold : ℚ) : String :=
  let claudeMatches := claudeCount queryLower
  if 2 ≤ claudeMatches ∨ factors.code_keywords > 6/10 then "claude"
  else if factors.multimodal > 0 then "gemini"
  else if score < threshold then "local"
  else "gemini"

/-- The weighted sum `sum(factors[factor] * weight for factor, weight in WEIGHTS)`. -/
def weightedTotal (f : Factors) : ℚ :=
  (WEIGHTS.map (fun p => f.get p.1 * p.2)).sum

/-- The `factors` dict built inside `ComplexityScorer.score`. -/
def scoreFactors (query : String) (has_image has_screen : Bool)
    (context_tokens : ℕ) : Factors :=
  let query_lower := lowerStr query.data
  let token_count := countWords query.data
  { token_count := min ((token_count : ℚ) / 500) 1
    code_keywords := min ((countLowered CODE_KEYWORDS query_lower : ℚ) / 5) 1
    research_markers := min ((countLowered RESEARCH_MARKERS query_lower : ℚ) / 3) 1
    multimodal := if has_image || has_screen then 1 else 0
    context_length := min ((context_tokens : ℚ) / 2000) 1 }

/-- Method `ComplexityScorer.score` from the source (`self.threshold` passed
explicitly; the singleton `scorer` uses the default threshold 0.4). -/
def score (threshold : ℚ) (query : String) (has_image has_screen : Bool)
    (context_tokens : ℕ) : ComplexityScore :=
  let query_lower := lowerStr query.data
  let factors := scoreFactors query has_image has_screen context_tokens
  let total := weightedTotal factors
  let recommendation := getRecommendation query_lower total factors threshold
  { score := pyRound total 3
    factors := factors
    recommendation := recommendation }

/-- Default `threshold` of the singleton `scorer = ComplexityScorer()`. -/
def defaultThreshold : ℚ := 4/10

end ComplexityScorer

/-- Adjacent character pairs (2-grams) of a character list. -/
def pairs : List Char → List (Char × Char)
  | [] => []
  | [_] => []
  | a :: b :: t => (a, b) :: pairs (b :: t)

/-- The boundary 2-gram of a concatenation of two character lists. -/
def pairsBridge (l1 l2 : List Char) : List (Char × Char) :=
  match l1.getLast?, l2.head? with
  | some a, some b => [(a, b)]
  | _, _ => []

/-- The 19 leading characters of `cexQueryC1`. -/
def cexHead : List Char := "implement unit test".data

/-- Characters of the 600-word query refuting the recommendation part of
C1: two heavy-coding markers followed by 597 filler words `z`. -/
def cexChars : List Char :=
  cexHead ++ (List.replicate 597 ([' ', 'z'] : List Char)).flatten

/-- Concrete 600-word query used to refute the recommendation part of C1:
it matches no code keywords and no research markers, but two heavy-coding
markers. -/
def cexQueryC1 : String := ⟨cexChars⟩

/-- Characters of the 600-word query `z z ... z` with no recognized
keywords of any kind. -/
def witChars : List Char := (List.replicate 600 (['z', ' '] : List Char)).flatten

/-- Concrete 600-word query with no recognized keywords of any kind. -/
def witQueryC1 : String := ⟨witChars⟩

/-- A list containing every 2-gram of `cexChars`. -/
def cexBound : List (Char × Char) :=
  pairs cexHead ++ [('t', ' '), (' ', 'z'), ('z', ' ')]

/-- A list containing every 2-gram of `witChars`. -/
def witBound : List (Char × Char) := [('z', ' '), (' ', 'z')]

/-! ## Router (src/backend/app/core/router.py) -/

namespace Router

/-- The `RouteTarget` enum from the source. -/
inductive RouteTarget
  | LOCAL
  | GEMINI
  | CLAUDE
  | OLLAMA
deriving DecidableEq, Repr

/-- Method `Router._resolve_target` from the source.  The availability flags
(`self._gemini_available`, `self._claude_available`, `self._ollama_available`)
are passed explicitly; `has_image` is a parameter of the Python method that it
never reads. -/
def resolveTarget (recommendation : String) (has_image : Bool)
    (gemini_available claude_available ollama_available : Bool) :
    RouteTarget × String :=
  if recommendation = "local" then
    (.LOCAL, "Low complexity, handled locally")
  else if recommendation = "gemini" then
    if gemini_available then (.GEMINI, "Routed to Gemini (speed + multimodal)")
    else if claude_available then (.CLAUDE, "Gemini unavailable, fallback to Claude")
    else if ollama_available then (.OLLAMA, "Cloud unavailable, fallback to Ollama")
    else (.LOCAL, "No backends available")
  else if recommendation = "claude" then
    if claude_available then (.CLAUDE, "Routed to Claude (code/research)")
    else if gemini_available then (.GEMINI, "Claude unavailable, fallback to Gemini")
    else if ollama_available then (.OLLAMA, "Cloud unavailable, fallback to Ollama")
    else (.LOCAL, "No backends available")
  else
    if ollama_available then (.OLLAMA, "Using local Ollama")
    else (.LOCAL, "Offline mode")

/-- The fallback chain as the specification words it, for comparison with
`resolveTarget`. -/
def fallbackChainSpec (recommendation : String) (g c o : Bool) : RouteTarget :=
  if recommendation = "local" then .LOCAL
  else if recommendation = "gemini" then
    if g then .GEMINI else if c then .CLAUDE else if o then .OLLAMA else .LOCAL
  else if recommendation = "claude" then
    if c then .CLAUDE else if g then .GEMINI else if o then .OLLAMA else .LOCAL
  else
    if o then .OLLAMA else .LOCAL

end Router

/-- Model of `s.upper()` (ASCII case folding). -/
def upperStr (s : List Char) : List Char := s.map Char.toUpper

/-! ## Persona catalog, current generation (src/backend/app/core/prompts.py).
Prompt template texts are long free-form strings no claim depends on; each
config carries a short marker string naming its template constant instead,
while the `persona`, `temperature` and `max_tokens` fields are exact. -/

namespace Prompts

/-- The `Persona` enum from the source (current catalog). -/
inductive Persona
  | SPARK
  | VORTEX
  | CORE
deriving DecidableEq, Repr

/-- Model of the `Persona(value)` enum construction: `none` models the `ValueError`
raised on an unrecognized value. -/
def Persona.ofValue? (s : String) : Option Persona :=
  if s = "SPARK" then some .SPARK
  else if s = "VORTEX" then some .VORTEX
  else if s = "CORE" then some .CORE
  else none

/-- The `SystemPrompt` dataclass from the source. -/
structure SystemPrompt where
  persona : Persona
  prompt : String
  temperature : ℚ
  max_tokens : ℕ
deriving DecidableEq, Repr

def SPARK_CONFIG : SystemPrompt :=
  { persona := .SPARK, prompt := "SPARK_PROMPT", temperature := 7/10, max_tokens := 150 }

def VORTEX_CONFIG : SystemPrompt :=
  { persona := .VORTEX, prompt := "VORTEX_PROMPT", temperature := 1/10, max_tokens := 200 }

def CORE_CONFIG : SystemPrompt :=
  { persona := .CORE, prompt := "CORE_PROMPT", temperature := 5/10, max_tokens := 4096 }

def CORE_CONFIG_COT : SystemPrompt :=
  { persona := .CORE, prompt := "CORE_PROMPT_COT", temperature := 5/10, max_tokens := 4096 }

/-- Function `get_system_prompt` from the source (string-tag path): the tag is
upper-cased and converted through the `Persona` enum, which raises
`ValueError` on an unknown tag. -/
def get_system_prompt (persona : String) (enable_cot : Bool) :
    Except String SystemPrompt :=
  match Persona.ofValue? ⟨upperStr persona.data⟩ with
  | none => .error "ValueError: not a valid Persona"
  | some .SPARK => .ok SPARK_CONFIG
  | some .VORTEX => .ok VORTEX_CONFIG
  | some .CORE => .ok (if enable_cot then CORE_CONFIG_COT else CORE_CONFIG)

/-- Function `get_prompt_for_route` from the source (current catalog). -/
def get_prompt_for_route (route : String) (enable_cot : Bool) : SystemPrompt :=
  let route : String := ⟨upperStr route.data⟩
  if route = "LOCAL" then SPARK_CONFIG
  else if route = "GEMINI" ∨ route = "CLAUDE" ∨ route = "OLLAMA" then
    if enable_cot then CORE_CONFIG_COT else CORE_CONFIG
  else SPARK_CONFIG

end Prompts

/-! ## Persona catalog, later generation (src/backend/_archive/app/core/prompts.py). -/

namespace ArchivePrompts

/-- The `Persona` enum from the archive catalog. -/
inductive Persona
  | SPARK
  | VORTEX
  | CORE
  | HADRON
  | SERVITOR
  | OMNISSIAH
deriving DecidableEq, Repr

/-- Model of the `Persona(value)` enum construction for the archive catalog. -/
def Persona.ofValue? (s : String) : Option Persona :=
  if s = "SPARK" then some .SPARK
  else if s = "VORTEX" then some .VORTEX
  else if s = "CORE" then some .CORE
  else if s = "HADRON" then some .HADRON
  else if s = "SERVITOR" then some .SERVITOR
  else if s = "OMNISSIAH" then some .OMNISSIAH
  else none

def HADRON_CONFIG : Prompts.SystemPrompt :=
  { persona := .SPARK, prompt := "HADRON_PROMPT", temperature := 7/10, max_tokens := 2048 }

def SERVITOR_CONFIG : Prompts.SystemPrompt :=
  { persona := .VORTEX, prompt := "SERVITOR_PROMPT", temperature := 3/10, max_tokens := 1024 }

def OMNISSIAH_CONFIG : Prompts.SystemPrompt :=
  { persona := .CORE, prompt := "OMNISSIAH_PROMPT", temperature := 5/10, max_tokens := 4096 }

/-- Function `get_system_prompt` from the archive catalog: unknown string tags still
raise `ValueError` inside the enum conversion, before the catch-all
`else: return HADRON_CONFIG` branch can apply. -/
def get_system_prompt (persona : String) (enable_cot : Bool) :
    Except String Prompts.SystemPrompt :=
  match Persona.ofValue? ⟨upperStr persona.data⟩ with
  | none => .error "ValueError: not a valid Persona"
  | some .SPARK => .ok HADRON_CONFIG
  | some .VORTEX => .ok SERVITOR_CONFIG
  | some .CORE => .ok OMNISSIAH_CONFIG
  | some .HADRON => .ok HADRON_CONFIG
  | some _ => .ok HADRON_CONFIG

/-- Function `get_prompt_for_route` from the archive catalog. -/
def get_prompt_for_route (route : String) (enable_cot : Bool) :
    Prompts.SystemPrompt :=
  let route : String := ⟨upperStr route.data⟩
  if route = "LOCAL" then HADRON_CONFIG
  else if route = "OLLAMA" then SERVITOR_CONFIG
  else if route = "GEMINI" then OMNISSIAH_CONFIG
  else HADRON_CONFIG

end ArchivePrompts

/-! ## Cognitive governor (src/backend/app/core/governor.py). -/

namespace CognitiveGovernor

/-- The `Complexity` dataclass from the source. -/
structure Complexity where
  score : ℚ
  reasoning : String
deriving DecidableEq, Repr

/-- The `RoutingDecision` dataclass from the source. -/
structure RoutingDecision where
  target : String
  complexity : Complexity
  persona : String
deriving DecidableEq, Repr

/-- Tier-4 trigger substrings from `classify_intent`. -/
def TIER4_KEYWORDS : List String :=
  ["research", "write a book", "deep analysis", "complex code", "architect", "study"]

/-- Tier-3 trigger substrings from `classify_intent`. -/
def TIER3_KEYWORDS : List String :=
  ["explain", "tell me", "story", "chat"]

/-- Method `CognitiveGovernor.classify_intent` from the source;
`settings.GEMINI_API_KEY` truthiness is passed as `gemini_key`.  The nested
`if` for tier 4 (whose body only returns when the key is configured) is
flattened to a conjunction, since a keyword match without a key falls
through to the later checks. -/
def classify_intent (gemini_key : Bool) (prompt : String) : RoutingDecision :=
  let prompt_lower := lowerStr prompt.data
  let score : ℚ := (countWords prompt.data : ℚ) / 50
  if (TIER4_KEYWORDS.any (fun w => containsSub w.data prompt_lower)) = true ∧
      gemini_key = true then
    { target := "OMNISSIAH"
      complexity := { score := 9/10, reasoning := "High Logic Required" }
      persona := "ARCH_MAGOS" }
  else if score > 3/10 ∨
      (TIER3_KEYWORDS.any (fun w => containsSub w.data prompt_lower)) = true then
    { target := "SERVITOR"
      complexity := { score := score, reasoning := "Conversational Task" }
      persona := "SERVITOR" }
  else
    { target := "OVERSEER"
      complexity := { score := 1/10, reasoning := "System/Command" }
      persona := "OVERSEER" }

/-- A 51-word prompt containing no tier keyword: its SERVITOR score exceeds 1. -/
def longPrompt : String := String.join (List.replicate 51 "z ")

end CognitiveGovernor

/-- Model of `s.strip()`: drop whitespace from both ends. -/
def stripStr (s : List Char) : List Char :=
  ((s.dropWhile Char.isWhitespace).reverse.dropWhile Char.isWhitespace).reverse

/-- Helper for `splitWords`: accumulates the current (reversed) word. -/
def splitWordsAux (cur : List Char) : List Char → List (List Char)
  | [] => if cur.isEmpty then [] else [cur.reverse]
  | c :: cs =>
      if c.isWhitespace then
        if cur.isEmpty then splitWordsAux [] cs
        else cur.reverse :: splitWordsAux [] cs
      else splitWordsAux (c :: cur) cs

/-- Model of `s.split()`: the list of maximal non-whitespace runs. -/
def splitWords (s : List Char) : List (List Char) := splitWordsAux [] s

/-! ## PC executor (src/backend/neurobeam/pc_executor.py). -/

namespace PCExecutor

/-- The `SAFE_APPS` whitelist from the source. -/
def SAFE_APPS : List (String × String) :=
  [("notepad", "notepad.exe"), ("calculator", "calc.exe"),
   ("explorer", "explorer.exe"), ("terminal", "wt.exe"),
   ("powershell", "powershell.exe"), ("cmd", "cmd.exe"),
   ("browser", "start"), ("chrome", "chrome.exe"),
   ("firefox", "firefox.exe"), ("edge", "msedge.exe"),
   ("vscode", "code"), ("task_manager", "taskmgr.exe"),
   ("settings", "ms-settings:"), ("paint", "mspaint.exe"),
   ("snip", "SnippingTool.exe")]

/-- The `params` dict of `launch_app`: an optional `app` entry and the
`args` entry, which defaults to the empty string (`params.get("args", "")`). -/
structure LaunchParams where
  app : Option String
  args : String
deriving DecidableEq, Repr

/-- The operating-system side effect `launch_app` requests: either
`os.startfile(target)` (URI-based launch) or
`subprocess.Popen([exe] + args.split())`. -/
inductive Spawn
  | startfile (target : String)
  | popen (exe : String) (argv : List String)
deriving DecidableEq, Repr

/-- Result dict of `launch_app` (field subset used by the claims). -/
structure LaunchResult where
  success : Bool
  error : Option String
  available_apps : Option (List String)
  launched : Option String
  exe : Option String
deriving DecidableEq, Repr

/-- Function `launch_app` from the source, returning both its result dict and the
spawn request it issues (`none` when nothing is launched).  OS-level spawn
failures (`FileNotFoundError`) are outside the model: the returned `Spawn`
is the process/URI the code asks the OS to start. -/
def launch_app (params : Option LaunchParams) : LaunchResult × Option Spawn :=
  let missing : LaunchResult × Option Spawn :=
    ({ success := false, error := some "Missing app parameter",
       available_apps := some (SAFE_APPS.map Prod.fst),
       launched := none, exe := none }, none)
  match params with
  | none => missing
  | some p =>
      match p.app with
      | none => missing
      | some appRaw =>
          let app_name : String := ⟨stripStr (lowerStr appRaw.data)⟩
          match SAFE_APPS.lookup app_name with
          | none =>
              ({ success := false, error := some "App not in whitelist",
                 available_apps := some (SAFE_APPS.map Prod.fst),
                 launched := none, exe := none }, none)
          | some exe =>
              let args := p.args
              if "ms-settings:".data.isPrefixOf exe.data ∨ exe = "start" then
                let target := if exe ≠ "start" then exe else args
                ({ success := true, error := none, available_apps := none,
                   launched := some app_name, exe := some exe },
                 some (.startfile target))
              else
                let argv := if args = "" then [] else splitWords args.data
                ({ success := true, error := none, available_apps := none,
                   launched := some app_name, exe := some exe },
                 some (.popen exe (argv.map (fun w => (⟨w⟩ : String)))))

end PCExecutor

/-! ## Memory manager (src/backend/_archive/memory/memory_manager.py).

The relational store (models.py) becomes an explicit `Store` value; the
sentence-transformer embedding model becomes a fallible parameter `embed`
(modelling `generate_embedding`, which can raise inside the transaction);
the pgvector cosine-distance operator becomes a parameter `dist`; UUID
primary keys become counter-allocated naturals; `_session_scope` becomes the
commit-on-ok / rollback-and-reraise-on-error wrapper of each public
operation. -/

namespace MemoryManager

/-- The `Conversation` row (models.py). -/
structure Conversation where
  id : ℕ
  user_id : String
  device_id : Option String
  updated_at : ℕ
deriving DecidableEq, Repr

/-- The `Message` row (models.py). -/
structure Message where
  id : ℕ
  conversation_id : ℕ
  role : String
  content : String
  device_origin : Option String
  created_at : ℕ
deriving DecidableEq, Repr

/-- The `SemanticMemory` row (models.py). -/
structure SemanticMemory where
  id : ℕ
  message_id : ℕ
  embedding : List ℚ
  tag : Option String
  retrieval_count : ℕ
deriving DecidableEq, Repr

/-- The committed database state, plus the id-allocation counter. -/
structure Store where
  conversations : List Conversation
  messages : List Message
  memories : List SemanticMemory
  nextId : ℕ
deriving DecidableEq, Repr

/-- Result dict of `save_interaction`. -/
structure SaveResult where
  conversation_id : ℕ
  message_id : ℕ
  memory_id : ℕ
deriving DecidableEq, Repr

/-- The most recently updated conversation for a (user, device) pair:
`query(Conversation).filter_by(...).order_by(updated_at.desc()).first()`. -/
def findRecent (convs : List Conversation) (user : String)
    (dev : Option String) : Option Conversation :=
  (convs.filter (fun c => c.user_id == user && c.device_id == dev)).foldl
    (fun acc c =>
      match acc with
      | none => some c
      | some b => if b.updated_at < c.updated_at then some c else some b)
    none

/-- Steps 2-5 of `save_interaction` once a conversation id is resolved:
touch the conversation timestamp, flush the `Message`, generate the
embedding (which may fail), flush the `SemanticMemory`.  The intermediate
draft states (`st1`, `st2`) are discarded when the embedding step raises. -/
def saveWithConv (embed : String → Option (List ℚ)) (now : ℕ)
    (text role : String) (device_id tag : Option String)
    (convId : ℕ) (st : Store) : Except String (SaveResult × Store) :=
  let st1 : Store :=
    { st with conversations := (st.conversations.map
        (fun c => if c.id == convId then { c with updated_at := now } else c)) }
  let mid := st1.nextId
  let message : Message :=
    { id := mid, conversation_id := convId, role := role, content := text,
      device_origin := device_id, created_at := now }
  let st2 : Store :=
    { st1 with messages := st1.messages ++ [message], nextId := mid + 1 }
  match embed text with
  | none => .error "embedding generation failed"
  | some emb =>
      let memid := st2.nextId
      let memory : SemanticMemory :=
        { id := memid, message_id := mid, embedding := emb, tag := tag,
          retrieval_count := 0 }
      let st3 : Store :=
        { st2 with memories := st2.memories ++ [memory], nextId := memid + 1 }
      .ok ({ conversation_id := convId, message_id := mid, memory_id := memid },
           st3)

/-- The transaction body of `save_interaction` (step 1, conversation
resolution, then `saveWithConv`). -/
def saveBody (embed : String → Option (List ℚ)) (now : ℕ)
    (user_id text role : String) (device_id tag : Option String)
    (conversation_id : Option ℕ) (st : Store) :
    Except String (SaveResult × Store) :=
  match conversation_id with
  | some cid =>
      match st.conversations.find? (fun c => c.id == cid) with
      | none => .error "ValueError: Conversation not found."
      | some _ => saveWithConv embed now text role device_id tag cid st
  | none =>
      match findRecent st.conversations user_id device_id with
      | some conv => saveWithConv embed now text role device_id tag conv.id st
      | none =>
          let conv : Conversation :=
            { id := st.nextId, user_id := user_id, device_id := device_id,
              updated_at := now }
          let st' : Store :=
            { st with conversations := (st.conversations ++ [conv]),
                      nextId := st.nextId + 1 }
          saveWithConv embed now text role device_id tag conv.id st'

/-- Function `save_interaction`: runs the body under `_session_scope` semantics —
commit the drafted state on success, roll back to the entry state and
re-raise a single wrapped error on any failure. -/
def save_interaction (embed : String → Option (List ℚ)) (now : ℕ)
    (user_id text role : String) (device_id tag : Option String)
    (conversation_id : Option ℕ) (st : Store) :
    Except String SaveResult × Store :=
  match saveBody embed now user_id text role device_id tag conversation_id st with
  | .ok (r, st') => (.ok r, st')
  | .error e => (.error ("Failed to save interaction: " ++ e), st)

/-- One result row of `recall_memories`. -/
structure RecallRow where
  content : String
  role : String
  device_origin : Option String
  created_at : ℕ
  tag : Option String
  similarity : ℚ
deriving DecidableEq, Repr

/-- The SQL `FROM semantic_memory sm JOIN messages m ON m.id = sm.message_id
WHERE (:tag IS NULL OR sm.tag = :tag)`. -/
def joinRows (st : Store) (tag_filter : Option String) :
    List (Message × SemanticMemory) :=
  st.memories.filterMap (fun sm =>
    if tag_filter = none ∨ sm.tag = tag_filter then
      match st.messages.find? (fun m => m.id == sm.message_id) with
      | some m => some (m, sm)
      | none => none
    else none)

/-- Model of `ORDER BY sm.embedding <=> :embedding LIMIT :limit` over the joined
rows, for the query embedding `qe`. -/
def recallRows (dist : List ℚ → List ℚ → ℚ) (qe : List ℚ) (st : Store)
    (tag_filter : Option String) (limit : ℕ) :
    List (Message × SemanticMemory) :=
  ((joinRows st tag_filter).insertionSort
      (fun a b => dist qe a.2.embedding ≤ dist qe b.2.embedding)).take limit

/-- Conversion of one fetched row to the returned dict
(`similarity = round(1.0 - distance, 4)`). -/
def mkRecallRow (dist : List ℚ → List ℚ → ℚ) (qe : List ℚ)
    (r : Message × SemanticMemory) : RecallRow :=
  { content := r.1.content, role := r.1.role,
    device_origin := r.1.device_origin, created_at := r.1.created_at,
    tag := r.2.tag, similarity := pyRound (1 - dist qe r.2.embedding) 4 }

/-- Transaction body of `recall_memories`: embed the query, fetch the
ordered limited rows, convert them, and increment `retrieval_count` for
exactly the returned memory ids in the same transaction. -/
def recallBody (dist : List ℚ → List ℚ → ℚ)
    (embed : String → Option (List ℚ)) (query_text : String) (limit : ℕ)
    (tag_filter : Option String) (st : Store) :
    Except String (List RecallRow × Store) :=
  match embed query_text with
  | none => .error "embedding generation failed"
  | some qe =>
      let rows := recallRows dist qe st tag_filter limit
      let results := rows.map (mkRecallRow dist qe)
      let ids := rows.map (fun r => r.2.id)
      let st' : Store :=
        { st with memories := (st.memories.map (fun sm =>
            if sm.id ∈ ids then { sm with retrieval_count := sm.retrieval_count + 1 }
            else sm)) }
      .ok (results, st')

/-- Function `recall_memories` under `_session_scope` semantics. -/
def recall_memories (dist : List ℚ → List ℚ → ℚ)
    (embed : String → Option (List ℚ)) (query_text : String) (limit : ℕ)
    (tag_filter : Option String) (st : Store) :
    Except String (List RecallRow) × Store :=
  match recallBody dist embed query_text limit tag_filter st with
  | .ok (rs, st') => (.ok rs, st')
  | .error e => (.error ("Failed to recall memories: " ++ e), st)

end MemoryManager

/-- Concrete embedding function for the memory-manager witnesses. -/
def embedOne : String → Option (List ℚ) := fun _ => some [1, 0]

/-- Concrete distance function for the recall witness. -/
def distZero : List ℚ → List ℚ → ℚ := fun _ _ => 0

/-- Concrete store for the C4 witness: one conversation, no messages. -/
def storeC4 : MemoryManager.Store :=
  { conversations :=
      [{ id := 1, user_id := "kosi", device_id := some "pixel_9", updated_at := 0 }],
    messages := [], memories := [], nextId := 2 }

/-! ## Encrypted tether envelope (src/backend/app/main.py, websocket_endpoint).

AES-256-GCM itself lives in the `cryptography` library; for a fixed session
key it is modelled by its CTR keystream and its authentication-tag function,
taken as opaque parameters with their length/byte-range laws
(`AESGCMModel`).  `base64.b64encode`/`b64decode` are likewise modelled as an
abstract codec with its round-trip law (`B64Codec`).  Bytes are naturals
below 256. -/

namespace TetherCrypto

/-- Byte strings: every element below 256. -/
def ByteOk (bs : List ℕ) : Prop := ∀ b ∈ bs, b < 256

/-- Model of one `AESGCM(key)` instance: `keystream nonce len` is the CTR
keystream the cipher XORs against the plaintext and `tagFn nonce ct` is the
16-byte authentication tag appended by `encrypt` and checked by `decrypt`. -/
structure AESGCMModel where
  keystream : List ℕ → ℕ → List ℕ
  tagFn : List ℕ → List ℕ → List ℕ
  keystream_length : ∀ n l, (keystream n l).length = l
  keystream_lt : ∀ n l, ∀ b ∈ keystream n l, b < 256
  tag_length : ∀ n c, (tagFn n c).length = 16
  tag_lt : ∀ n c, ∀ b ∈ tagFn n c, b < 256

/-- Model of `base64.b64encode` / `base64.b64decode`. -/
structure B64Codec where
  enc : List ℕ → String
  dec : String → Option (List ℕ)
  dec_enc : ∀ bs, ByteOk bs → dec (enc bs) = some bs

/-- Byte-wise XOR (the CTR combination inside AES-GCM). -/
def xorBytes (a b : List ℕ) : List ℕ := List.zipWith (fun x y => x ^^^ y) a b

/-- Model of `AESGCM.encrypt(nonce, pt, None)`: returns ciphertext with the 16-byte
tag appended. -/
def aesgcmEncrypt (m : AESGCMModel) (nonce pt : List ℕ) : List ℕ :=
  let ct := xorBytes pt (m.keystream nonce pt.length)
  ct ++ m.tagFn nonce ct

/-- Model of `AESGCM.decrypt(nonce, data, None)`: splits off the trailing 16-byte
tag, recomputes it over the ciphertext, and fails (`InvalidTag`) unless it
matches. -/
def aesgcmDecrypt (m : AESGCMModel) (nonce data : List ℕ) : Option (List ℕ) :=
  if data.length < 16 then none
  else
    let ct := data.take (data.length - 16)
    let t := data.drop (data.length - 16)
    if m.tagFn nonce ct = t then some (xorBytes ct (m.keystream nonce ct.length))
    else none

/-- The `{c, n, t}` wire envelope. -/
structure Envelope where
  c : String
  n : String
  t : String
deriving DecidableEq, Repr

/-- The ciphertext bytes of a frame (`full_ct[:-16]` in the source). -/
def frameCt (m : AESGCMModel) (nonce pt : List ℕ) : List ℕ :=
  xorBytes pt (m.keystream nonce pt.length)

/-- The tag bytes of a frame (`full_ct[-16:]` in the source). -/
def frameTag (m : AESGCMModel) (nonce pt : List ℕ) : List ℕ :=
  m.tagFn nonce (frameCt m nonce pt)

/-- Sender side of the gateway: encrypt, split `ciphertext‖tag` into the
separate Base64 fields `c` and `t`, and Base64 the nonce into `n`. -/
def encryptFrame (b64 : B64Codec) (m : AESGCMModel) (nonce pt : List ℕ) :
    Envelope :=
  let full := aesgcmEncrypt m nonce pt
  let tag := full.drop (full.length - 16)
  let actual := full.take (full.length - 16)
  { c := b64.enc actual, n := b64.enc nonce, t := b64.enc tag }

/-- Receiver side of the gateway: Base64-decode the three fields,
reconstruct `ciphertext‖tag`, and run AES-GCM decryption. -/
def decryptFrame (b64 : B64Codec) (m : AESGCMModel) (env : Envelope) :
    Option (List ℕ) :=
  match b64.dec env.c, b64.dec env.n, b64.dec env.t with
  | some cb, some nb, some tb => aesgcmDecrypt m nb (cb ++ tb)
  | _, _, _ => none

/-- What one iteration of the websocket loop does with an inbound encrypted
frame: a decryption failure is logged and the loop `continue`s (the message
is dropped); a decrypted plaintext is handed on to routing. -/
inductive LoopStep
  | dropContinue
  | route (pt : List ℕ)
deriving DecidableEq, Repr

/-- The `try/except` around decryption in `websocket_endpoint`. -/
def handleEncryptedFrame (b64 : B64Codec) (m : AESGCMModel) (env : Envelope) :
    LoopStep :=
  match decryptFrame b64 m env with
  | none => .dropContinue
  | some pt => .route pt

/-- Flip bit `i` of byte `j` of a byte string. -/
def flipBit (bs : List ℕ) (j i : ℕ) : List ℕ :=
  bs.set j (bs.getD j 0 ^^^ 2 ^ i)

end TetherCrypto

namespace TetherCrypto

/-- A concrete byte-to-character codec instance for the C6 witness (a valid
`B64Codec` since it round-trips on byte strings). -/
def byteCodec : B64Codec where
  enc := fun bs => ⟨bs.map Char.ofNat⟩
  dec := fun s => some (s.data.map Char.toNat)
  dec_enc := by
    intro bs h
    simp only [Option.some.injEq, List.map_map]
    induction bs with
    | nil => rfl
    | cons b rest ih =>
        have hb : b < 256 := h b (by simp)
        have hv : Nat.isValidChar b := Or.inl (by omega)
        have hbn : (Char.ofNat b).toNat = b := by
          simp [Char.ofNat, hv, Char.toNat, Char.ofNatAux, UInt32.toNat]
        simp only [List.map_cons, Function.comp]
        rw [hbn, ih (fun x hx => h x (List.mem_cons_of_mem _ hx))]

/-- A concrete cipher instance for the C6 witness (zero keystream, zero
tag — the envelope layer does not depend on the cipher internals). -/
def gcmZero : AESGCMModel where
  keystream := fun _ l => List.replicate l 0
  tagFn := fun _ _ => List.replicate 16 0
  keystream_length := by intro n l; simp
  keystream_lt := by intro n l b hb; simp at hb; omega
  tag_length := by intro n c; simp
  tag_lt := by intro n c b hb; simp at hb; omega

/-- Concrete plaintext and nonce for the C6 witness. -/
def ptW : List ℕ := [104, 105]

/-- Concrete 96-bit nonce for the C6 witness. -/
def nonceW : List ℕ := List.replicate 12 0

end TetherCrypto

/-! ## Beam pairing verification (src/backend/main.py, verify_beam).

`hmac.new(SERVER_SECRET_KEY, payload, sha256).hexdigest()` is modelled by an
abstract deterministic function `hmacHex` (HMAC-SHA256 for the fixed server
secret), and `json.loads(base64.urlsafe_b64decode(payload))` together with
the `ts`/`exp` field defaults by an abstract partial decoder
`decodePayload`; both are library primitives.  `hmac.compare_digest` is a
(timing-safe) string equality. -/

namespace BeamVerify

/-- The decoded QR payload fields `verify_beam` reads (`ts` and `exp`
already carry the `.get` defaults 0 and 300). -/
structure BeamPayload where
  action : String
  context : String
  ts : ℤ
  exp : ℤ
deriving DecidableEq, Repr

/-- Successful response body (`status: verified` with the decoded action
and context). -/
structure VerifiedBeam where
  action : String
  context : String
deriving DecidableEq, Repr

/-- Function `verify_beam` from the source: HTTP errors are `(status, detail)`
pairs.  The signature is recomputed over the received payload string and
compared before the payload is decoded or trusted; decode failures map to
400 "Corrupt Data Payload"; expiry (`now - ts > exp`) maps to 400
"QR Code Expired". -/
def verify_beam (hmacHex : String → String)
    (decodePayload : String → Option BeamPayload) (now : ℤ)
    (payload signature : String) : Except (ℕ × String) VerifiedBeam :=
  if hmacHex payload ≠ signature then
    .error (403, "Invalid QR Code Signature")
  else
    match decodePayload payload with
    | none => .error (400, "Corrupt Data Payload")
    | some d =>
        if now - d.ts > d.exp then .error (400, "QR Code Expired")
        else .ok { action := d.action, context := d.context }

end BeamVerify

namespace BeamVerify

/-- Concrete HMAC stand-in for the C7 witness: deterministic and separating
the two payloads used. -/
def hmacW : String → String := fun s => s ++ "#mac"

/-- Concrete payload decoder for the C7 witness. -/
def decodeW : String → Option BeamPayload := fun s =>
  if s = "good" then
    some { action := "tether", context := "host-token-agent", ts := 0, exp := 300 }
  else none

end BeamVerify

/-! ## Helper lemmas -/

theorem containsSub_map (f : Char → Char) (n h : List Char)
    (hc : containsSub n h = true) : containsSub (n.map f) (h.map f) = true := by
  induction h with
  | nil =>
      simp [containsSub] at hc ⊢
      simp [hc]
  | cons c cs ih =>
      simp only [containsSub, Bool.or_eq_true] at hc
      rcases hc with hpre | hrest
      · have hp : n <+: (c :: cs) := by
          exact List.isPrefixOf_iff_prefix.mp hpre
        have : n.map f <+: (c :: cs).map f := hp.map f
        simp only [List.map_cons] at this
        simp only [List.map_cons, containsSub, Bool.or_eq_true]
        have hres := List.isPrefixOf_iff_prefix.mpr this
        exact Or.inl hres
      · simp only [List.map_cons, containsSub, Bool.or_eq_true]
        exact Or.inr (ih hrest)

theorem two_le_length_of_two_mem {α : Type} {m : List α} {a b : α}
    (ha : a ∈ m) (hb : b ∈ m) (hab : a ≠ b) : 2 ≤ m.length := by
  match m with
  | [] => exact absurd ha (List.not_mem_nil a)
  | [x] =>
      simp only [List.mem_singleton] at ha hb
      exact absurd (ha.trans hb.symm) hab
  | x :: y :: rest => simp [List.length]

namespace ComplexityScorer

theorem weightedTotal_eq (f : Factors) :
    weightedTotal f = f.token_count * (30/100) + f.code_keywords * (25/100)
      + f.research_markers * (20/100) + f.multimodal * (15/100)
      + f.context_length * (10/100) := by
  simp [weightedTotal, WEIGHTS, Factors.get]
  ring

theorem score_score_eq (threshold : ℚ) (q : String) (img scr : Bool) (ct : ℕ) :
    (score threshold q img scr ct).score =
      pyRound (weightedTotal (scoreFactors q img scr ct)) 3 := rfl

theorem score_rec_eq (threshold : ℚ) (q : String) (img scr : Bool) (ct : ℕ) :
    (score threshold q img scr ct).recommendation =
      getRecommendation (lowerStr q.data)
        (weightedTotal (scoreFactors q img scr ct))
        (scoreFactors q img scr ct) threshold := rfl

end ComplexityScorer

namespace MemoryManager

theorem saveWithConv_ok {embed : String → Option (List ℚ)} {now : ℕ}
    {text role : String} {device_id tag : Option String} {convId : ℕ}
    {st : Store} {r : SaveResult} {st' : Store}
    (h : saveWithConv embed now text role device_id tag convId st = .ok (r, st')) :
    ∃ emb, embed text = some emb ∧
      r = { conversation_id := convId, message_id := st.nextId,
            memory_id := st.nextId + 1 } ∧
      st'.messages = st.messages ++
        [{ id := r.message_id, conversation_id := r.conversation_id,
           role := role, content := text, device_origin := device_id,
           created_at := now }] ∧
      st'.memories = st.memories ++
        [{ id := r.memory_id, message_id := r.message_id, embedding := emb,
           tag := tag, retrieval_count := 0 }] := by
  cases hemb : embed text with
  | none => simp [saveWithConv, hemb] at h
  | some emb =>
      simp only [saveWithConv, hemb, Except.ok.injEq, Prod.mk.injEq] at h
      obtain ⟨hr, hst⟩ := h
      subst hr
      subst hst
      exact ⟨emb, rfl, rfl, rfl, rfl⟩

theorem saveWithConv_error {embed : String → Option (List ℚ)} {now : ℕ}
    {text role : String} {device_id tag : Option String} {convId : ℕ}
    {st : Store} (hemb : embed text = none) :
    saveWithConv embed now text role device_id tag convId st
      = .error "embedding generation failed" := by
  simp [saveWithConv, hemb]

theorem saveBody_notFound {embed : String → Option (List ℚ)} {now : ℕ}
    {user_id text role : String} {device_id tag : Option String}
    {cid : ℕ} {st : Store}
    (hfind : st.conversations.find? (fun c => c.id == cid) = none) :
    saveBody embed now user_id text role device_id tag (some cid) st
      = .error "ValueError: Conversation not found." := by
  simp only [saveBody]
  rw [hfind]

theorem saveBody_embedFail {embed : String → Option (List ℚ)} {now : ℕ}
    {user_id text role : String} {device_id tag : Option String}
    {conversation_id : Option ℕ} {st : Store} (hemb : embed text = none) :
    ∀ e0, saveBody embed now user_id text role device_id tag conversation_id st
        = .error e0 →
      e0 = "ValueError: Conversation not found." ∨
      e0 = "embedding generation failed" := by
  intro e0 h
  cases conversation_id with
  | some cid =>
      simp only [saveBody] at h
      cases hfind : st.conversations.find? (fun c => c.id == cid) with
      | none => simp only [hfind] at h; simp at h; exact Or.inl h.symm
      | some conv =>
          simp only [hfind, saveWithConv_error hemb] at h
          simp at h
          exact Or.inr h.symm
  | none =>
      simp only [saveBody] at h
      cases hrec : findRecent st.conversations user_id device_id with
      | some conv =>
          simp only [hrec, saveWithConv_error hemb] at h
          simp at h
          exact Or.inr h.symm
      | none =>
          simp only [hrec, saveWithConv_error hemb] at h
          simp at h
          exact Or.inr h.symm

theorem saveBody_error_of_embedFail {embed : String → Option (List ℚ)} {now : ℕ}
    {user_id text role : String} {device_id tag : Option String}
    {conversation_id : Option ℕ} {st : Store} (hemb : embed text = none) :
    ∀ r st', saveBody embed now user_id text role device_id tag conversation_id st
        ≠ .ok (r, st') := by
  intro r st' h
  cases conversation_id with
  | some cid =>
      simp only [saveBody] at h
      cases hfind : st.conversations.find? (fun c => c.id == cid) with
      | none =>
          simp only [hfind] at h
          exact absurd h (by simp)
      | some conv =>
          simp only [hfind, saveWithConv_error hemb] at h
          exact absurd h (by simp)
  | none =>
      simp only [saveBody] at h
      cases hrec : findRecent st.conversations user_id device_id with
      | some conv =>
          simp only [hrec, saveWithConv_error hemb] at h
          exact absurd h (by simp)
      | none =>
          simp only [hrec, saveWithConv_error hemb] at h
          exact absurd h (by simp)

theorem saveBody_ok {embed : String → Option (List ℚ)} {now : ℕ}
    {user_id text role : String} {device_id tag : Option String}
    {conversation_id : Option ℕ} {st : Store} {r : SaveResult} {st' : Store}
    (h : saveBody embed now user_id text role device_id tag conversation_id st
      = .ok (r, st')) :
    ∃ emb, embed text = some emb ∧
      st'.messages = st.messages ++
        [{ id := r.message_id, conversation_id := r.conversation_id,
           role := role, content := text, device_origin := device_id,
           created_at := now }] ∧
      st'.memories = st.memories ++
        [{ id := r.memory_id, message_id := r.message_id, embedding := emb,
           tag := tag, retrieval_count := 0 }] := by
  cases conversation_id with
  | some cid =>
      simp only [saveBody] at h
      cases hfind : st.conversations.find? (fun c => c.id == cid) with
      | none =>
          simp only [hfind] at h
          exact absurd h (by simp)
      | some conv =>
          simp only [hfind] at h
          obtain ⟨emb, hemb, hr, hmsg, hmem⟩ := saveWithConv_ok h
          exact ⟨emb, hemb, hmsg, hmem⟩
  | none =>
      simp only [saveBody] at h
      cases hrec : findRecent st.conversations user_id device_id with
      | some conv =>
          simp only [hrec] at h
          obtain ⟨emb, hemb, hr, hmsg, hmem⟩ := saveWithConv_ok h
          exact ⟨emb, hemb, hmsg, hmem⟩
      | none =>
          simp only [hrec] at h
          obtain ⟨emb, hemb, hr, hmsg, hmem⟩ := saveWithConv_ok h
          exact ⟨emb, hemb, hmsg, hmem⟩

theorem save_interaction_eq_error {embed : String → Option (List ℚ)} {now : ℕ}
    {user_id text role : String} {device_id tag : Option String}
    {conversation_id : Option ℕ} {st : Store} {e0 : String}
    (hb : saveBody embed now user_id text role device_id tag conversation_id st
      = .error e0) :
    save_interaction embed now user_id text role device_id tag conversation_id st
      = (.error ("Failed to save interaction: " ++ e0), st) := by
  unfold save_interaction
  rw [hb]

theorem save_interaction_eq_ok {embed : String → Option (List ℚ)} {now : ℕ}
    {user_id text role : String} {device_id tag : Option String}
    {conversation_id : Option ℕ} {st : Store} {r : SaveResult} {st' : Store}
    (hb : saveBody embed now user_id text role device_id tag conversation_id st
      = .ok (r, st')) :
    save_interaction embed now user_id text role device_id tag conversation_id st
      = (.ok r, st') := by
  unfold save_interaction
  rw [hb]

end MemoryManager

namespace MemoryManager

theorem recall_memories_eq {dist : List ℚ → List ℚ → ℚ}
    {embed : String → Option (List ℚ)} {q : String} {limit : ℕ}
    {tagF : Option String} {st : Store} {qe : List ℚ}
    (hqe : embed q = some qe) :
    recall_memories dist embed q limit tagF st
      = (.ok ((recallRows dist qe st tagF limit).map (mkRecallRow dist qe)),
         { st with memories := (st.memories.map (fun sm =>
             if sm.id ∈ (recallRows dist qe st tagF limit).map (fun r => r.2.id)
             then { sm with retrieval_count := sm.retrieval_count + 1 }
             else sm)) }) := by
  unfold recall_memories recallBody
  rw [hqe]

end MemoryManager

namespace TetherCrypto

theorem xorBytes_length (a b : List ℕ) :
    (xorBytes a b).length = min a.length b.length := by
  simp [xorBytes]

theorem xorBytes_lt {a b : List ℕ} (ha : ByteOk a) (hb : ByteOk b) :
    ByteOk (xorBytes a b) := by
  induction a generalizing b with
  | nil => intro x hx; simp [xorBytes] at hx
  | cons x xs ih =>
      intro y hy
      cases b with
      | nil => simp [xorBytes] at hy
      | cons z zs =>
          simp only [xorBytes, List.zipWith_cons_cons, List.mem_cons] at hy
          rcases hy with hy | hy
          · subst hy
            have hx : x < 2 ^ 8 := ha x (by simp)
            have hz : z < 2 ^ 8 := hb z (by simp)
            exact Nat.xor_lt_two_pow hx hz
          · exact ih (fun u hu => ha u (List.mem_cons_of_mem _ hu))
              (fun u hu => hb u (List.mem_cons_of_mem _ hu)) y hy

theorem xorBytes_cancel {a k : List ℕ} (h : k.length = a.length) :
    xorBytes (xorBytes a k) k = a := by
  induction a generalizing k with
  | nil => cases k <;> simp [xorBytes]
  | cons x xs ih =>
      cases k with
      | nil => simp at h
      | cons z zs =>
          simp only [xorBytes, List.zipWith_cons_cons]
          simp only [List.length_cons, Nat.succ.injEq] at h
          rw [Nat.xor_cancel_right]
          have := @ih zs h
          simp only [xorBytes] at this
          rw [this]

theorem encryptFrame_eq (b64 : B64Codec) (m : AESGCMModel) (nonce pt : List ℕ) :
    encryptFrame b64 m nonce pt =
      { c := b64.enc (frameCt m nonce pt), n := b64.enc nonce,
        t := b64.enc (frameTag m nonce pt) } := by
  unfold encryptFrame aesgcmEncrypt
  have htl : (m.tagFn nonce (xorBytes pt (m.keystream nonce pt.length))).length
      = 16 := m.tag_length _ _
  have hlen : (xorBytes pt (m.keystream nonce pt.length)
        ++ m.tagFn nonce (xorBytes pt (m.keystream nonce pt.length))).length - 16
      = (xorBytes pt (m.keystream nonce pt.length)).length := by
    simp [htl]
  simp only [hlen]
  rw [List.take_left, List.drop_left]
  rfl

theorem frameCt_byteOk {m : AESGCMModel} {nonce pt : List ℕ} (hpt : ByteOk pt) :
    ByteOk (frameCt m nonce pt) :=
  xorBytes_lt hpt (m.keystream_lt nonce pt.length)

theorem frameCt_length (m : AESGCMModel) (nonce pt : List ℕ) :
    (frameCt m nonce pt).length = pt.length := by
  simp [frameCt, xorBytes_length, m.keystream_length]

theorem aesgcmDecrypt_append_tag (m : AESGCMModel) {nonce ct t : List ℕ}
    (ht : t.length = 16) :
    aesgcmDecrypt m nonce (ct ++ t) =
      if m.tagFn nonce ct = t then
        some (xorBytes ct (m.keystream nonce ct.length))
      else none := by
  unfold aesgcmDecrypt
  have hlen : (ct ++ t).length - 16 = ct.length := by simp [ht]
  rw [if_neg (by simp [ht])]
  simp only [hlen]
  rw [List.take_left' rfl, List.drop_left' rfl]

end TetherCrypto


theorem pairs_cons_cons (a b : Char) (t : List Char) :
    pairs (a :: b :: t) = (a, b) :: pairs (b :: t) := rfl

theorem pairs_tail_subset (a : Char) (t : List Char) :
    pairs t ⊆ pairs (a :: t) := by
  cases t with
  | nil => simp [pairs]
  | cons b r =>
      intro p hp
      rw [pairs_cons_cons]
      exact List.mem_cons_of_mem _ hp

theorem pairs_subset_append (l t : List Char) : pairs l ⊆ pairs (l ++ t) := by
  induction l with
  | nil => simp [pairs]
  | cons a r ih =>
      cases r with
      | nil => simp [pairs]
      | cons b r' =>
          intro p hp
          rw [pairs_cons_cons] at hp
          simp only [List.cons_append]
          rw [pairs_cons_cons]
          rcases List.mem_cons.mp hp with hp | hp
          · exact hp ▸ List.mem_cons_self _ _
          · have : p ∈ pairs ((b :: r') ++ t) := ih hp
            simp only [List.cons_append] at this
            exact List.mem_cons_of_mem _ this

theorem pairs_subset_of_prefixOf {l1 l2 : List Char}
    (h : l1.isPrefixOf l2 = true) : pairs l1 ⊆ pairs l2 := by
  obtain ⟨t, ht⟩ := List.isPrefixOf_iff_prefix.mp h
  subst ht
  exact pairs_subset_append l1 t

theorem pairs_subset_of_containsSub {n hay : List Char}
    (h : containsSub n hay = true) : pairs n ⊆ pairs hay := by
  induction hay with
  | nil =>
      simp [containsSub] at h
      simp [h, pairs]
  | cons c cs ih =>
      simp only [containsSub, Bool.or_eq_true] at h
      rcases h with h | h
      · exact pairs_subset_of_prefixOf h
      · exact fun p hp => pairs_tail_subset c cs (ih h hp)

theorem containsSub_eq_false_of_fresh_pair {n hay : List Char}
    {bound : List (Char × Char)}
    (hb : ∀ p ∈ pairs hay, p ∈ bound)
    (hf : ∃ pr ∈ pairs n, pr ∉ bound) :
    containsSub n hay = false := by
  obtain ⟨pr, hpr, hnb⟩ := hf
  cases hx : containsSub n hay with
  | false => rfl
  | true => exact absurd (hb pr (pairs_subset_of_containsSub hx hpr)) hnb

theorem mem_pairs_append (l1 l2 : List Char) :
    ∀ p ∈ pairs (l1 ++ l2),
      p ∈ pairs l1 ∨ p ∈ pairsBridge l1 l2 ∨ p ∈ pairs l2 := by
  induction l1 with
  | nil => exact fun p hp => Or.inr (Or.inr hp)
  | cons a t ih =>
      cases t with
      | nil =>
          cases l2 with
          | nil => intro p hp; simp [pairs] at hp
          | cons b t2 =>
              intro p hp
              simp only [List.singleton_append] at hp
              rw [pairs_cons_cons] at hp
              rcases List.mem_cons.mp hp with hp | hp
              · exact Or.inr (Or.inl (by simp [pairsBridge, hp]))
              · exact Or.inr (Or.inr hp)
      | cons c t' =>
          intro p hp
          simp only [List.cons_append] at hp
          rw [pairs_cons_cons] at hp
          rcases List.mem_cons.mp hp with hp | hp
          · exact Or.inl (hp ▸ List.mem_cons_self _ _)
          · have hp' : p ∈ pairs ((c :: t') ++ l2) := by
              simpa [List.cons_append] using hp
            rcases ih p hp' with h | h | h
            · exact Or.inl (pairs_tail_subset a (c :: t') h)
            · refine Or.inr (Or.inl ?_)
              have hlast : (a :: c :: t').getLast? = (c :: t').getLast? :=
                List.getLast?_cons_cons
              simp only [pairsBridge, hlast]
              exact h
            · exact Or.inr (Or.inr h)

theorem containsSub_nil_left (h : List Char) : containsSub [] h = true := by
  cases h with
  | nil => rfl
  | cons c cs => simp [containsSub, List.isPrefixOf]

theorem containsSub_append_left {n l1 : List Char} (l2 : List Char)
    (h : containsSub n l1 = true) : containsSub n (l1 ++ l2) = true := by
  induction l1 with
  | nil =>
      simp [containsSub] at h
      simp [h, containsSub_nil_left]
  | cons c cs ih =>
      simp only [containsSub, Bool.or_eq_true] at h
      simp only [List.cons_append, containsSub, Bool.or_eq_true]
      rcases h with h | h
      · left
        obtain ⟨t, ht⟩ := List.isPrefixOf_iff_prefix.mp h
        apply List.isPrefixOf_iff_prefix.mpr
        refine ⟨t ++ l2, ?_⟩
        rw [← List.append_assoc, ht]
        exact List.cons_append c cs l2
      · right
        exact ih h

theorem pairs_flatten_sz :
    ∀ n, ∀ p ∈ pairs ((List.replicate n ([' ', 'z'] : List Char)).flatten),
      p ∈ ([(' ', 'z'), ('z', ' ')] : List (Char × Char)) := by
  intro n
  induction n with
  | zero => intro p hp; simp [pairs] at hp
  | succ m ih =>
      intro p hp
      rw [List.replicate_succ, List.flatten_cons] at hp
      cases m with
      | zero =>
          simp [pairs] at hp
          simp [hp]
      | succ k =>
          have hflat : (List.replicate (k + 1) ([' ', 'z'] : List Char)).flatten
              = ' ' :: 'z' :: (List.replicate k ([' ', 'z'] : List Char)).flatten := by
            rw [List.replicate_succ, List.flatten_cons]
            rfl
          rw [hflat] at hp
          simp only [List.cons_append, List.nil_append] at hp
          rw [pairs_cons_cons, pairs_cons_cons] at hp
          rw [← hflat] at hp
          rcases List.mem_cons.mp hp with hp | hp
          · simp [hp]
          · rcases List.mem_cons.mp hp with hp | hp
            · simp [hp]
            · exact ih p hp

theorem pairs_flatten_zs :
    ∀ n, ∀ p ∈ pairs ((List.replicate n (['z', ' '] : List Char)).flatten),
      p ∈ witBound := by
  intro n
  induction n with
  | zero => intro p hp; simp [pairs] at hp
  | succ m ih =>
      intro p hp
      rw [List.replicate_succ, List.flatten_cons] at hp
      cases m with
      | zero =>
          simp [pairs] at hp
          simp [witBound, hp]
      | succ k =>
          have hflat : (List.replicate (k + 1) (['z', ' '] : List Char)).flatten
              = 'z' :: ' ' :: (List.replicate k (['z', ' '] : List Char)).flatten := by
            rw [List.replicate_succ, List.flatten_cons]
            rfl
          rw [hflat] at hp
          simp only [List.cons_append, List.nil_append] at hp
          rw [pairs_cons_cons, pairs_cons_cons] at hp
          rw [← hflat] at hp
          rcases List.mem_cons.mp hp with hp | hp
          · simp [witBound, hp]
          · rcases List.mem_cons.mp hp with hp | hp
            · simp [witBound, hp]
            · exact ih p hp

theorem cex_pairs_bound : ∀ p ∈ pairs cexChars, p ∈ cexBound := by
  intro p hp
  unfold cexChars at hp
  rcases mem_pairs_append cexHead _ p hp with h | h | h
  · exact List.mem_append_left _ h
  · have hl : cexHead.getLast? = some 't' := by decide
    have hh : ((List.replicate 597 ([' ', 'z'] : List Char)).flatten).head?
        = some ' ' := by
      rw [show (597 : ℕ) = 596 + 1 from rfl, List.replicate_succ,
        List.flatten_cons]
      rfl
    simp only [pairsBridge, hl, hh, List.mem_singleton] at h
    subst h
    decide
  · have h2 := pairs_flatten_sz 597 p h
    rcases List.mem_cons.mp h2 with h2 | h2
    · subst h2; decide
    · rcases List.mem_cons.mp h2 with h2 | h2
      · subst h2; decide
      · simp at h2

theorem wit_pairs_bound : ∀ p ∈ pairs witChars, p ∈ witBound := by
  intro p hp
  unfold witChars at hp
  exact pairs_flatten_zs 600 p hp

theorem countWordsAux_append (l1 l2 : List Char) : ∀ b,
    countWordsAux b (l1 ++ l2)
      = countWordsAux b l1
        + countWordsAux (l1.foldl (fun _ c => !c.isWhitespace) b) l2 := by
  induction l1 with
  | nil => intro b; simp [countWordsAux]
  | cons c cs ih =>
      intro b
      cases hc : c.isWhitespace with
      | true =>
          simp only [List.cons_append, countWordsAux, hc, if_true,
            List.foldl_cons, Bool.not_true, List.append_eq]
          rw [ih false]
      | false =>
          simp only [List.cons_append, countWordsAux, hc, List.foldl_cons,
            Bool.not_false, Bool.false_eq_true, if_false, List.append_eq]
          rw [ih true]
          omega

theorem countWordsAux_flatten_sz :
    ∀ (n : ℕ) (b : Bool),
      countWordsAux b ((List.replicate n ([' ', 'z'] : List Char)).flatten)
        = n := by
  intro n
  induction n with
  | zero => intro b; simp [countWordsAux]
  | succ m ih =>
      intro b
      rw [List.replicate_succ, List.flatten_cons]
      have hsp : (' ').isWhitespace = true := rfl
      have hz : ('z').isWhitespace = false := rfl
      show countWordsAux b
        (' ' :: 'z' :: (List.replicate m ([' ', 'z'] : List Char)).flatten)
        = m + 1
      simp only [countWordsAux, hsp, hz, if_true]
      rw [if_neg (by simp), if_neg (by simp), ih true]
      omega

theorem countWordsAux_flatten_zs :
    ∀ (n : ℕ),
      countWordsAux false
          ((List.replicate n (['z', ' '] : List Char)).flatten)
        = n := by
  intro n
  induction n with
  | zero => simp [countWordsAux]
  | succ m ih =>
      rw [List.replicate_succ, List.flatten_cons]
      have hsp : (' ').isWhitespace = true := rfl
      have hz : ('z').isWhitespace = false := rfl
      show countWordsAux false
        ('z' :: ' ' :: (List.replicate m (['z', ' '] : List Char)).flatten)
        = m + 1
      simp only [countWordsAux, hsp, hz, if_true, if_false]
      rw [if_neg (by simp), ih]
      simp
      omega

theorem countWords_cexChars : countWords cexChars = 600 := by
  unfold countWords cexChars
  rw [countWordsAux_append]
  have h1 : countWordsAux false cexHead = 3 := by decide
  have h2 : cexHead.foldl (fun _ c => !c.isWhitespace) false = true := by decide
  rw [h1, h2, countWordsAux_flatten_sz]

theorem countWords_witChars : countWords witChars = 600 := by
  unfold countWords witChars
  exact countWordsAux_flatten_zs 600

theorem lowerStr_cexChars : lowerStr cexChars = cexChars := by
  unfold cexChars lowerStr
  rw [List.map_append, List.map_flatten, List.map_replicate]
  rw [show List.map Char.toLower cexHead = cexHead from by decide]
  rw [show List.map Char.toLower ([' ', 'z'] : List Char) = [' ', 'z'] from by decide]

theorem lowerStr_witChars : lowerStr witChars = witChars := by
  unfold witChars lowerStr
  rw [List.map_flatten, List.map_replicate]
  rw [show List.map Char.toLower (['z', ' '] : List Char) = ['z', ' '] from by decide]

namespace ComplexityScorer

theorem countLowered_eq_zero {kws : List String} {hay : List Char}
    {bound : List (Char × Char)}
    (hb : ∀ p ∈ pairs hay, p ∈ bound)
    (hf : ∀ kw ∈ kws, ∃ pr ∈ pairs (lowerStr kw.data), pr ∉ bound) :
    countLowered kws hay = 0 := by
  unfold countLowered
  rw [List.length_eq_zero, List.filter_eq_nil_iff]
  intro kw hkw
  rw [containsSub_eq_false_of_fresh_pair hb (hf kw hkw)]
  simp

theorem claudeCount_eq_zero {hay : List Char} {bound : List (Char × Char)}
    (hb : ∀ p ∈ pairs hay, p ∈ bound)
    (hf : ∀ cm ∈ CLAUDE_MARKERS, ∃ pr ∈ pairs cm.data, pr ∉ bound) :
    claudeCount hay = 0 := by
  unfold claudeCount
  rw [List.length_eq_zero, List.filter_eq_nil_iff]
  intro cm hcm
  rw [containsSub_eq_false_of_fresh_pair hb (hf cm hcm)]
  simp

theorem cex_code_zero : countLowered CODE_KEYWORDS (lowerStr cexChars) = 0 := by
  rw [lowerStr_cexChars]
  exact countLowered_eq_zero cex_pairs_bound (by decide)

theorem cex_research_zero :
    countLowered RESEARCH_MARKERS (lowerStr cexChars) = 0 := by
  rw [lowerStr_cexChars]
  exact countLowered_eq_zero cex_pairs_bound (by decide)

theorem wit_code_zero : countLowered CODE_KEYWORDS (lowerStr witChars) = 0 := by
  rw [lowerStr_witChars]
  exact countLowered_eq_zero wit_pairs_bound (by decide)

theorem wit_research_zero :
    countLowered RESEARCH_MARKERS (lowerStr witChars) = 0 := by
  rw [lowerStr_witChars]
  exact countLowered_eq_zero wit_pairs_bound (by decide)

theorem wit_claude_zero : claudeCount (lowerStr witChars) = 0 := by
  rw [lowerStr_witChars]
  exact claudeCount_eq_zero wit_pairs_bound (by decide)

theorem cex_claude_two : claudeCount (lowerStr cexChars) = 2 := by
  rw [lowerStr_cexChars]
  have hpos1 : containsSub ("implement".data) cexChars = true := by
    unfold cexChars
    exact containsSub_append_left _ (by decide)
  have hpos2 : containsSub ("unit test".data) cexChars = true := by
    unfold cexChars
    exact containsSub_append_left _ (by decide)
  have n01 : containsSub ("write code".data) cexChars = false :=
    containsSub_eq_false_of_fresh_pair cex_pairs_bound (by decide)
  have n02 : containsSub ("create a function".data) cexChars = false :=
    containsSub_eq_false_of_fresh_pair cex_pairs_bound (by decide)
  have n03 : containsSub ("build a".data) cexChars = false :=
    containsSub_eq_false_of_fresh_pair cex_pairs_bound (by decide)
  have n04 : containsSub ("develop a".data) cexChars = false :=
    containsSub_eq_false_of_fresh_pair cex_pairs_bound (by decide)
  have n05 : containsSub ("full implementation".data) cexChars = false :=
    containsSub_eq_false_of_fresh_pair cex_pairs_bound (by decide)
  have n06 : containsSub ("complete solution".data) cexChars = false :=
    containsSub_eq_false_of_fresh_pair cex_pairs_bound (by decide)
  have n07 : containsSub ("production code".data) cexChars = false :=
    containsSub_eq_false_of_fresh_pair cex_pairs_bound (by decide)
  have n08 : containsSub ("integration test".data) cexChars = false :=
    containsSub_eq_false_of_fresh_pair cex_pairs_bound (by decide)
  have n09 : containsSub ("api design".data) cexChars = false :=
    containsSub_eq_false_of_fresh_pair cex_pairs_bound (by decide)
  have n10 : containsSub ("system design".data) cexChars = false :=
    containsSub_eq_false_of_fresh_pair cex_pairs_bound (by decide)
  have n11 : containsSub ("code review".data) cexChars = false :=
    containsSub_eq_false_of_fresh_pair cex_pairs_bound (by decide)
  have n12 : containsSub ("security audit".data) cexChars = false :=
    containsSub_eq_false_of_fresh_pair cex_pairs_bound (by decide)
  unfold claudeCount CLAUDE_MARKERS
  simp only [List.filter_cons, List.filter_nil, hpos1, hpos2, n01, n02, n03,
    n04, n05, n06, n07, n08, n09, n10, n11, n12, if_true, if_false]
  rfl

end ComplexityScorer

set_option maxRecDepth 100000

/-! ## Claim theorems -/

namespace ComplexityScorer

/-- C1 counterexample: `cexQueryC1` is a 600-word query matching no code
keywords and no research markers, with no image/screen and zero context
tokens; it scores exactly 0.30 but is recommended `claude`, not `local`,
because it contains two heavy-coding markers. -/
theorem C1_counterexample :
    countWords cexQueryC1.data = 600 ∧
    countLowered CODE_KEYWORDS (lowerStr cexQueryC1.data) = 0 ∧
    countLowered RESEARCH_MARKERS (lowerStr cexQueryC1.data) = 0 ∧
    (score defaultThreshold cexQueryC1 false false 0).score = 30/100 ∧
    (score defaultThreshold cexQueryC1 false false 0).recommendation ≠ "local" := by
  have hw : countWords cexQueryC1.data = 600 := countWords_cexChars
  have hc : countLowered CODE_KEYWORDS (lowerStr cexQueryC1.data) = 0 :=
    cex_code_zero
  have hr : countLowered RESEARCH_MARKERS (lowerStr cexQueryC1.data) = 0 :=
    cex_research_zero
  have hcl : claudeCount (lowerStr cexQueryC1.data) = 2 := cex_claude_two
  have hfac : scoreFactors cexQueryC1 false false 0 =
      { token_count := 1, code_keywords := 0, research_markers := 0,
        multimodal := 0, context_length := 0 } := by
    simp only [scoreFactors, hw, hc, hr]
    norm_num
  refine ⟨hw, hc, hr, ?_, ?_⟩
  · rw [score_score_eq, hfac, weightedTotal_eq]
    norm_num [pyRound, roundHalfEven]
  · rw [score_rec_eq, hfac]
    simp [getRecommendation, hcl]

/-- C1 (amended): the score is the weighted sum of the five normalized
factors rounded to 3 decimals; and a 600-word query matching no code
keywords, no research markers and fewer than two heavy-coding markers, with
no image/screen and zero context tokens, scores exactly 0.30 and is
recommended `local`. -/
theorem C1_amended :
    (∀ (threshold : ℚ) (q : String) (img scr : Bool) (ct : ℕ),
        (score threshold q img scr ct).score =
          pyRound (min ((countWords q.data : ℚ) / 500) 1 * (30/100)
            + min ((countLowered CODE_KEYWORDS (lowerStr q.data) : ℚ) / 5) 1 * (25/100)
            + min ((countLowered RESEARCH_MARKERS (lowerStr q.data) : ℚ) / 3) 1 * (20/100)
            + (if img || scr then (1 : ℚ) else 0) * (15/100)
            + min ((ct : ℚ) / 2000) 1 * (10/100)) 3) ∧
    (∀ q : String, countWords q.data = 600 →
        countLowered CODE_KEYWORDS (lowerStr q.data) = 0 →
        countLowered RESEARCH_MARKERS (lowerStr q.data) = 0 →
        claudeCount (lowerStr q.data) < 2 →
        (score defaultThreshold q false false 0).score = 30/100 ∧
        (score defaultThreshold q false false 0).recommendation = "local") := by
  constructor
  · intro threshold q img scr ct
    rw [score_score_eq, weightedTotal_eq]
    rfl
  · intro q hw hc hr hcl
    have hfac : scoreFactors q false false 0 =
        { token_count := 1, code_keywords := 0, research_markers := 0,
          multimodal := 0, context_length := 0 } := by
      simp only [scoreFactors, hw, hc, hr]
      norm_num
    constructor
    · rw [score_score_eq, hfac, weightedTotal_eq]
      norm_num [pyRound, roundHalfEven]
    · rw [score_rec_eq, hfac, weightedTotal_eq]
      simp only [getRecommendation]
      rw [if_neg, if_neg, if_pos]
      · norm_num [defaultThreshold]
      · norm_num
      · push_neg
        refine ⟨by omega, by norm_num⟩

/-- Witness for C1_amended: the concrete 600-word query `witQueryC1`
satisfies the hypotheses and is scored 0.30 / recommended `local`. -/
theorem C1_amended_witness :
    countWords witQueryC1.data = 600 ∧
    (score defaultThreshold witQueryC1 false false 0).score = 30/100 ∧
    (score defaultThreshold witQueryC1 false false 0).recommendation = "local" := by
  have hcl0 : claudeCount (lowerStr witQueryC1.data) = 0 := wit_claude_zero
  have happ := C1_amended.2 witQueryC1 countWords_witChars wit_code_zero
    wit_research_zero (by rw [hcl0]; norm_num)
  exact ⟨countWords_witChars, happ.1, happ.2⟩

/-- C2: the recommendation follows the ordered policy (claude when at least
two heavy-coding markers match or the code-keyword factor exceeds 0.6, else
gemini when the multimodal factor is positive, else local below the
threshold, else gemini); and any query containing both `implement` and
`unit test` is recommended `claude` regardless of its score. -/
theorem C2_policy :
    (∀ (queryLower : List Char) (total threshold : ℚ) (factors : Factors),
        getRecommendation queryLower total factors threshold =
          if 2 ≤ claudeCount queryLower ∨ factors.code_keywords > 6/10 then "claude"
          else if factors.multimodal > 0 then "gemini"
          else if total < threshold then "local"
          else "gemini") ∧
    (∀ (threshold : ℚ) (q : String) (img scr : Bool) (ct : ℕ),
        containsSub "implement".data q.data = true →
        containsSub "unit test".data q.data = true →
        (score threshold q img scr ct).recommendation = "claude") := by
  constructor
  · intro queryLower total threshold factors
    rfl
  · intro threshold q img scr ct h1 h2
    have h1l : containsSub "implement".data (lowerStr q.data) = true := by
      have := containsSub_map Char.toLower "implement".data q.data h1
      simpa using this
    have h2l : containsSub "unit test".data (lowerStr q.data) = true := by
      have := containsSub_map Char.toLower "unit test".data q.data h2
      simpa using this
    have hmem1 : "implement" ∈ CLAUDE_MARKERS.filter
        (fun cm => containsSub cm.data (lowerStr q.data)) :=
      List.mem_filter.mpr ⟨by decide, h1l⟩
    have hmem2 : "unit test" ∈ CLAUDE_MARKERS.filter
        (fun cm => containsSub cm.data (lowerStr q.data)) :=
      List.mem_filter.mpr ⟨by decide, h2l⟩
    have hcl : 2 ≤ claudeCount (lowerStr q.data) :=
      two_le_length_of_two_mem hmem1 hmem2 (by decide)
    rw [score_rec_eq]
    simp [getRecommendation, hcl]

/-- Witness for C2_policy: the query "implement unit test" is recommended
`claude`. -/
theorem C2_policy_witness :
    (score defaultThreshold "implement unit test" false false 0).recommendation
      = "claude" :=
  C2_policy.2 defaultThreshold "implement unit test" false false 0
    (by decide) (by decide)

end ComplexityScorer

namespace Router

/-- C3: for every recommendation and availability flags, `_resolve_target`
follows the documented fallback chain, with the documented reason strings:
a cloud-to-cloud downgrade mentions "fallback", exhaustion of the chain for
the gemini/claude recommendations reports "No backends available", and an
unrecognized recommendation with the local backend unreachable reports
"Offline mode". -/
theorem C3_resolveTarget :
    ∀ (rec : String) (img g c o : Bool),
      (resolveTarget rec img g c o).1 = fallbackChainSpec rec g c o ∧
      (rec = "gemini" → g = false → c = true →
        containsSub "fallback".data (resolveTarget rec img g c o).2.data = true) ∧
      (rec = "claude" → c = false → g = true →
        containsSub "fallback".data (resolveTarget rec img g c o).2.data = true) ∧
      (rec = "gemini" → g = false → c = false → o = false →
        (resolveTarget rec img g c o).2 = "No backends available") ∧
      (rec = "claude" → c = false → g = false → o = false →
        (resolveTarget rec img g c o).2 = "No backends available") ∧
      (rec ≠ "local" → rec ≠ "gemini" → rec ≠ "claude" → o = false →
        (resolveTarget rec img g c o).2 = "Offline mode") := by
  intro rec img g c o
  by_cases hl : rec = "local"
  · subst hl
    cases g <;> cases c <;> cases o <;>
      simp [resolveTarget, fallbackChainSpec]
  · by_cases hg : rec = "gemini"
    · subst hg
      cases g <;> cases c <;> cases o <;>
        simp [resolveTarget, fallbackChainSpec] <;> decide
    · by_cases hc : rec = "claude"
      · subst hc
        cases g <;> cases c <;> cases o <;>
          simp [resolveTarget, fallbackChainSpec] <;> decide
      · cases o <;>
          simp [resolveTarget, fallbackChainSpec, hl, hg, hc]

/-- Witness for C3_resolveTarget: recommendation `gemini` with Gemini
unavailable and Claude available resolves to CLAUDE with a reason mentioning
"fallback". -/
theorem C3_resolveTarget_witness :
    (resolveTarget "gemini" false false true false).1 = RouteTarget.CLAUDE ∧
    containsSub "fallback".data
      (resolveTarget "gemini" false false true false).2.data = true := by
  have h := C3_resolveTarget "gemini" false false true false
  exact ⟨by rw [h.1]; rfl, h.2.1 rfl rfl rfl⟩

end Router

/-- C9 counterexample: the unknown persona tag "nebula" makes both catalogs'
`get_system_prompt` raise `ValueError` rather than fall back to a default
config, so unknown persona tags do fail the lookup. -/
theorem C9_counterexample :
    Prompts.get_system_prompt "nebula" false
        = Except.error "ValueError: not a valid Persona" ∧
    ArchivePrompts.get_system_prompt "nebula" false
        = Except.error "ValueError: not a valid Persona" := by
  constructor <;> rfl

/-- C9 (amended): unknown route tags never fail `get_prompt_for_route` and
fall back to the default persona config (HADRON in the later catalog, SPARK
in the current one); `get_system_prompt` falls back to the default only for
recognized `Persona` enum values without a dedicated branch
(SERVITOR/OMNISSIAH in the later catalog), while an unrecognized string tag
raises `ValueError` in both catalogs. -/
theorem C9_amended :
    (∀ (route : String) (cot : Bool),
        (⟨upperStr route.data⟩ : String) ≠ "LOCAL" →
        (⟨upperStr route.data⟩ : String) ≠ "OLLAMA" →
        (⟨upperStr route.data⟩ : String) ≠ "GEMINI" →
        ArchivePrompts.get_prompt_for_route route cot = ArchivePrompts.HADRON_CONFIG) ∧
    (∀ (route : String) (cot : Bool),
        (⟨upperStr route.data⟩ : String) ≠ "LOCAL" →
        (⟨upperStr route.data⟩ : String) ≠ "GEMINI" →
        (⟨upperStr route.data⟩ : String) ≠ "CLAUDE" →
        (⟨upperStr route.data⟩ : String) ≠ "OLLAMA" →
        Prompts.get_prompt_for_route route cot = Prompts.SPARK_CONFIG) ∧
    (ArchivePrompts.get_system_prompt "SERVITOR" false
        = Except.ok ArchivePrompts.HADRON_CONFIG) ∧
    (ArchivePrompts.get_system_prompt "OMNISSIAH" false
        = Except.ok ArchivePrompts.HADRON_CONFIG) ∧
    (∀ (s : String) (cot : Bool),
        ArchivePrompts.Persona.ofValue? ⟨upperStr s.data⟩ = none →
        ArchivePrompts.get_system_prompt s cot
          = Except.error "ValueError: not a valid Persona") ∧
    (∀ (s : String) (cot : Bool),
        Prompts.Persona.ofValue? ⟨upperStr s.data⟩ = none →
        Prompts.get_system_prompt s cot
          = Except.error "ValueError: not a valid Persona") := by
  refine ⟨?_, ?_, rfl, rfl, ?_, ?_⟩
  · intro route cot h1 h2 h3
    simp only [ArchivePrompts.get_prompt_for_route]
    rw [if_neg h1, if_neg h2, if_neg h3]
  · intro route cot h1 h2 h3 h4
    simp only [Prompts.get_prompt_for_route]
    rw [if_neg h1, if_neg ?_]
    push_neg
    exact ⟨h2, h3, h4⟩
  · intro s cot h
    simp only [ArchivePrompts.get_system_prompt, h]
  · intro s cot h
    simp only [Prompts.get_system_prompt, h]

/-- Witness for C9_amended: the unknown route tag "nebula" resolves to the
default config in both catalogs without failing. -/
theorem C9_amended_witness :
    ArchivePrompts.get_prompt_for_route "nebula" false = ArchivePrompts.HADRON_CONFIG ∧
    Prompts.get_prompt_for_route "nebula" false = Prompts.SPARK_CONFIG :=
  ⟨C9_amended.1 "nebula" false (by decide) (by decide) (by decide),
   C9_amended.2.1 "nebula" false (by decide) (by decide) (by decide) (by decide)⟩

namespace CognitiveGovernor

/-- C10: `classify_intent` is total (always returns one of the three tiers);
in the SERVITOR branch the complexity score is exactly wordCount/50 with no
upper clamp, so a 51-word prompt matching no tier keyword scores strictly
above 1.0; and a tier-4 keyword match with no cloud API key configured falls
through to the lower-tier checks (here all the way to OVERSEER) instead of
selecting the cloud tier or failing. -/
theorem C10_classify_intent :
    (∀ (gk : Bool) (p : String),
        (classify_intent gk p).target = "OMNISSIAH" ∨
        (classify_intent gk p).target = "SERVITOR" ∨
        (classify_intent gk p).target = "OVERSEER") ∧
    (∀ (gk : Bool) (p : String),
        (classify_intent gk p).target = "SERVITOR" →
        (classify_intent gk p).complexity.score = (countWords p.data : ℚ) / 50) ∧
    (countWords longPrompt.data = 51 ∧
      (classify_intent true longPrompt).target = "SERVITOR" ∧
      (classify_intent true longPrompt).complexity.score > 1) ∧
    (classify_intent false "research"
        = { target := "OVERSEER"
            complexity := { score := 1/10, reasoning := "System/Command" }
            persona := "OVERSEER" }) := by
  refine ⟨?_, ?_, ?_, ?_⟩
  · intro gk p
    simp only [classify_intent]
    split
    · exact Or.inl rfl
    · split
      · exact Or.inr (Or.inl rfl)
      · exact Or.inr (Or.inr rfl)
  · intro gk p
    simp only [classify_intent]
    split
    · intro h
      exact absurd h (by decide)
    · split
      · intro _
        rfl
      · intro h
        exact absurd h (by decide)
  · have hw : countWords longPrompt.data = 51 := by decide
    have h4 : (TIER4_KEYWORDS.any
        (fun w => containsSub w.data (lowerStr longPrompt.data))) = false := by decide
    refine ⟨hw, ?_, ?_⟩
    · simp only [classify_intent, hw, h4]
      rw [if_neg (by simp), if_pos (by norm_num)]
    · simp only [classify_intent, hw, h4]
      rw [if_neg (by simp), if_pos (by norm_num)]
      norm_num
  · have hw : countWords ("research" : String).data = 1 := by decide
    have h4 : (TIER4_KEYWORDS.any
        (fun w => containsSub w.data (lowerStr ("research" : String).data))) = true := by decide
    have h3 : (TIER3_KEYWORDS.any
        (fun w => containsSub w.data (lowerStr ("research" : String).data))) = false := by decide
    simp only [classify_intent, hw, h4, h3]
    rw [if_neg (by simp), if_neg (by norm_num)]

/-- Witness for C10_classify_intent: the 51-word prompt is classified
SERVITOR and its reported score is exactly 51/50. -/
theorem C10_classify_intent_witness :
    (classify_intent true longPrompt).complexity.score
      = (countWords longPrompt.data : ℚ) / 50 := by
  have hw : countWords longPrompt.data = 51 := by decide
  have h4 : (TIER4_KEYWORDS.any
      (fun w => containsSub w.data (lowerStr longPrompt.data))) = false := by decide
  have htgt : (classify_intent true longPrompt).target = "SERVITOR" := by
    simp only [classify_intent, hw, h4]
    rw [if_neg (by simp), if_pos (by norm_num)]
  exact C10_classify_intent.2.1 true longPrompt htgt

end CognitiveGovernor

namespace PCExecutor

/-- C8: `launch_app` rejects every app name
absent from the whitelist without spawning anything and returns the full
list of valid names; `launch_app` on `notepad` succeeds and spawns the
whitelist executable; but for the whitelisted name `browser` the launched
target is the caller-supplied `args` value verbatim (`os.startfile(args)`),
not the stored whitelist value `start` — the failing input
`launch_app(app="browser", args="C:\\evil.exe")` starts `C:\evil.exe`. -/
theorem C8_launch_app :
    ((launch_app (some { app := some "browser", args := "C:\\evil.exe" })).2
        = some (Spawn.startfile "C:\\evil.exe")) ∧
    (SAFE_APPS.lookup "browser" = some "start") ∧
    ("C:\\evil.exe" ≠ "start") ∧
    (∀ (p : LaunchParams) (app : String), p.app = some app →
        SAFE_APPS.lookup ⟨stripStr (lowerStr app.data)⟩ = none →
        (launch_app (some p)).1.success = false ∧
        (launch_app (some p)).2 = none ∧
        (launch_app (some p)).1.available_apps = some (SAFE_APPS.map Prod.fst)) ∧
    ((launch_app (some { app := some "notepad", args := "" })).1.success = true ∧
      (launch_app (some { app := some "notepad", args := "" })).2
        = some (Spawn.popen "notepad.exe" [])) := by
  refine ⟨rfl, rfl, by decide, ?_, rfl, rfl⟩
  intro p app happ hlook
  simp [launch_app, happ, hlook]

/-- Witness for C8_launch_app: the unknown app name `not_a_real_app` is
rejected with the whitelist attached and nothing is spawned. -/
theorem C8_launch_app_witness :
    (launch_app (some { app := some "not_a_real_app", args := "" })).1.success = false ∧
    (launch_app (some { app := some "not_a_real_app", args := "" })).2 = none ∧
    (launch_app (some { app := some "not_a_real_app", args := "" })).1.available_apps
      = some (SAFE_APPS.map Prod.fst) :=
  C8_launch_app.2.2.2.1 { app := some "not_a_real_app", args := "" }
    "not_a_real_app" rfl (by decide)

end PCExecutor

namespace MemoryManager

/-- C4: `save_interaction` is atomic.  Whenever the call reports an error
the store is exactly the entry store (no Message, SemanticMemory or touched
Conversation timestamp survives) and the error is the single wrapped
"Failed to save interaction" error; a caller-supplied conversation id that
does not exist causes exactly this failure; a forced embedding failure
(between the Message insert and the SemanticMemory insert) likewise leaves
the store untouched; and every successful call appends exactly one Message
together with its 1:1 SemanticMemory row. -/
theorem C4_save_interaction_atomic :
    (∀ (embed : String → Option (List ℚ)) (now : ℕ)
        (user_id text role : String) (device_id tag : Option String)
        (conversation_id : Option ℕ) (st : Store) (e : String),
        (save_interaction embed now user_id text role device_id tag
            conversation_id st).1 = .error e →
        (save_interaction embed now user_id text role device_id tag
            conversation_id st).2 = st ∧
        "Failed to save interaction".data.isPrefixOf e.data = true) ∧
    (∀ (embed : String → Option (List ℚ)) (now : ℕ)
        (user_id text role : String) (device_id tag : Option String)
        (cid : ℕ) (st : Store),
        st.conversations.find? (fun c => c.id == cid) = none →
        save_interaction embed now user_id text role device_id tag
            (some cid) st =
          (.error "Failed to save interaction: ValueError: Conversation not found.",
           st)) ∧
    (∀ (embed : String → Option (List ℚ)) (now : ℕ)
        (user_id text role : String) (device_id tag : Option String)
        (conversation_id : Option ℕ) (st : Store),
        embed text = none →
        (save_interaction embed now user_id text role device_id tag
            conversation_id st).2 = st ∧
        ∀ r, (save_interaction embed now user_id text role device_id tag
            conversation_id st).1 ≠ .ok r) ∧
    (∀ (embed : String → Option (List ℚ)) (now : ℕ)
        (user_id text role : String) (device_id tag : Option String)
        (conversation_id : Option ℕ) (st : Store) (r : SaveResult) (st' : Store),
        save_interaction embed now user_id text role device_id tag
            conversation_id st = (.ok r, st') →
        ∃ emb, embed text = some emb ∧
          st'.messages = st.messages ++
            [{ id := r.message_id, conversation_id := r.conversation_id,
               role := role, content := text, device_origin := device_id,
               created_at := now }] ∧
          st'.memories = st.memories ++
            [{ id := r.memory_id, message_id := r.message_id, embedding := emb,
               tag := tag, retrieval_count := 0 }]) := by
  refine ⟨?_, ?_, ?_, ?_⟩
  · intro embed now user_id text role device_id tag conversation_id st e h
    cases hb : saveBody embed now user_id text role device_id tag conversation_id st with
    | ok p =>
        obtain ⟨r0, st0⟩ := p
        rw [save_interaction_eq_ok hb] at h
        exact absurd h (by simp)
    | error e0 =>
        rw [save_interaction_eq_error hb] at h ⊢
        simp only [Except.error.injEq] at h
        subst h
        refine ⟨rfl, ?_⟩
        apply List.isPrefixOf_iff_prefix.mpr
        have hd : ("Failed to save interaction: " ++ e0).data
            = "Failed to save interaction: ".data ++ e0.data := by
          simp [String.data_append]
        rw [hd]
        exact List.IsPrefix.trans (by decide) (List.prefix_append _ _)
  · intro embed now user_id text role device_id tag cid st hfind
    exact save_interaction_eq_error (saveBody_notFound hfind)
  · intro embed now user_id text role device_id tag conversation_id st hemb
    cases hb : saveBody embed now user_id text role device_id tag conversation_id st with
    | ok p =>
        obtain ⟨r0, st0⟩ := p
        exact absurd hb (saveBody_error_of_embedFail hemb r0 st0)
    | error e0 =>
        rw [save_interaction_eq_error hb]
        exact ⟨rfl, by simp⟩
  · intro embed now user_id text role device_id tag conversation_id st r st' h
    cases hb : saveBody embed now user_id text role device_id tag conversation_id st with
    | ok p =>
        obtain ⟨r0, st0⟩ := p
        rw [save_interaction_eq_ok hb] at h
        simp only [Prod.mk.injEq, Except.ok.injEq] at h
        obtain ⟨h1, h2⟩ := h
        subst h1
        subst h2
        exact saveBody_ok hb
    | error e0 =>
        rw [save_interaction_eq_error hb] at h
        exact absurd h (by simp)

end MemoryManager

namespace MemoryManager

/-- C5: for every query, limit and optional tag filter, `recall_memories`
returns the joined rows ordered ascending by cosine distance, truncated to
at most `limit` rows, reports each row's similarity as `round(1 - d, 4)`,
and in the same transaction increments `retrieval_count` by exactly one for
the returned memory rows and leaves every other row unchanged. -/
theorem C5_recall_memories :
    ∀ (dist : List ℚ → List ℚ → ℚ) (embed : String → Option (List ℚ))
      (q : String) (limit : ℕ) (tagF : Option String) (st : Store)
      (qe : List ℚ),
      embed q = some qe →
      (recall_memories dist embed q limit tagF st).1
          = .ok ((recallRows dist qe st tagF limit).map (mkRecallRow dist qe)) ∧
      (recall_memories dist embed q limit tagF st).2.memories
          = st.memories.map (fun sm =>
              if sm.id ∈ (recallRows dist qe st tagF limit).map (fun r => r.2.id)
              then { sm with retrieval_count := sm.retrieval_count + 1 }
              else sm) ∧
      (recallRows dist qe st tagF limit).length ≤ limit ∧
      List.Pairwise (fun a b => dist qe a.2.embedding ≤ dist qe b.2.embedding)
        (recallRows dist qe st tagF limit) ∧
      (∀ r ∈ recallRows dist qe st tagF limit, r.2 ∈ st.memories) ∧
      (∀ r ∈ recallRows dist qe st tagF limit,
          (mkRecallRow dist qe r).similarity
            = pyRound (1 - dist qe r.2.embedding) 4) := by
  intro dist embed q limit tagF st qe hqe
  refine ⟨by rw [recall_memories_eq hqe], by rw [recall_memories_eq hqe], ?_, ?_, ?_, ?_⟩
  · exact le_trans (List.length_take_le _ _) le_rfl
  · unfold recallRows
    apply List.Pairwise.sublist (List.take_sublist _ _)
    haveI ht : IsTotal (Message × SemanticMemory)
        (fun a b => dist qe a.2.embedding ≤ dist qe b.2.embedding) :=
      ⟨fun a b => le_total _ _⟩
    haveI htr : IsTrans (Message × SemanticMemory)
        (fun a b => dist qe a.2.embedding ≤ dist qe b.2.embedding) :=
      ⟨fun a b c h1 h2 => le_trans h1 h2⟩
    exact List.sorted_insertionSort _ _
  · intro r hr
    unfold recallRows at hr
    have hr2 := (List.mem_insertionSort _).mp ((List.take_subset _ _) hr)
    obtain ⟨sm, hsm, hf⟩ := List.mem_filterMap.mp hr2
    by_cases hcond : tagF = none ∨ sm.tag = tagF
    · rw [if_pos hcond] at hf
      cases hfind : st.messages.find? (fun m => m.id == sm.message_id) with
      | none => rw [hfind] at hf; exact absurd hf (by simp)
      | some m =>
          rw [hfind] at hf
          simp only [Option.some.injEq] at hf
          rw [← hf]
          exact hsm
    · rw [if_neg hcond] at hf
      exact absurd hf (by simp)
  · intro r hr
    rfl

end MemoryManager

namespace MemoryManager

/-- Witness for C4: saving into the nonexistent conversation id 99 fails
with the wrapped error and leaves the store untouched. -/
theorem C4_save_interaction_atomic_witness :
    save_interaction embedOne 5 "kosi" "hello" "user" (some "pixel_9") none
        (some 99) storeC4
      = (.error "Failed to save interaction: ValueError: Conversation not found.",
         storeC4) :=
  C4_save_interaction_atomic.2.1 embedOne 5 "kosi" "hello" "user"
    (some "pixel_9") none 99 storeC4 rfl

/-- Witness for C5: with a concrete embedder the recall hypotheses hold and
the returned row count is bounded by the limit. -/
theorem C5_recall_memories_witness :
    embedOne "what did I say" = some [1, 0] ∧
    (recallRows distZero [1, 0] storeC4 none 5).length ≤ 5 :=
  ⟨rfl, (C5_recall_memories distZero embedOne "what did I say" 5 none storeC4
      [1, 0] rfl).2.2.1⟩

end MemoryManager

namespace TetherCrypto

/-- C6: the AES-256-GCM `{c,n,t}` envelope is a round trip — decrypting an
encrypted frame with the same session key recovers the plaintext exactly;
flipping any bit of the 16-byte tag carried in `t` makes decryption fail
deterministically; and the websocket loop treats that failure as a dropped
message (it continues) rather than a crash or a partially trusted result. -/
theorem C6_envelope :
    ∀ (b64 : B64Codec) (m : AESGCMModel) (nonce pt : List ℕ),
      ByteOk pt → ByteOk nonce →
      decryptFrame b64 m (encryptFrame b64 m nonce pt) = some pt ∧
      handleEncryptedFrame b64 m (encryptFrame b64 m nonce pt) = .route pt ∧
      (∀ j i, j < 16 → i < 8 →
        decryptFrame b64 m
          { encryptFrame b64 m nonce pt with
            t := b64.enc (flipBit (frameTag m nonce pt) j i) } = none ∧
        handleEncryptedFrame b64 m
          { encryptFrame b64 m nonce pt with
            t := b64.enc (flipBit (frameTag m nonce pt) j i) }
          = .dropContinue) := by
  intro b64 m nonce pt hpt hnonce
  have hct : ByteOk (frameCt m nonce pt) := frameCt_byteOk hpt
  have htag : ByteOk (frameTag m nonce pt) := m.tag_lt _ _
  have htagLen : (frameTag m nonce pt).length = 16 := m.tag_length _ _
  have hdec : decryptFrame b64 m (encryptFrame b64 m nonce pt) = some pt := by
    rw [encryptFrame_eq]
    unfold decryptFrame
    simp only [b64.dec_enc _ hct, b64.dec_enc _ hnonce, b64.dec_enc _ htag]
    rw [aesgcmDecrypt_append_tag m htagLen]
    rw [if_pos (show m.tagFn nonce (frameCt m nonce pt) = frameTag m nonce pt
      from rfl)]
    rw [frameCt_length]
    have : xorBytes (frameCt m nonce pt) (m.keystream nonce pt.length) = pt := by
      unfold frameCt
      exact xorBytes_cancel (by rw [m.keystream_length])
    rw [this]
  refine ⟨hdec, ?_, ?_⟩
  · unfold handleEncryptedFrame
    rw [hdec]
  · intro j i hj hi
    have hj' : j < (frameTag m nonce pt).length := by rw [htagLen]; exact hj
    have hflipOk : ByteOk (flipBit (frameTag m nonce pt) j i) := by
      intro b hb
      rcases List.mem_or_eq_of_mem_set hb with hb | hb
      · exact htag b hb
      · subst hb
        have h1 : (frameTag m nonce pt).getD j 0 < 2 ^ 8 := by
          rw [List.getD_eq_getElem _ _ hj']
          exact htag _ (List.getElem_mem hj')
        have h2 : (2 : ℕ) ^ i < 2 ^ 8 := Nat.pow_lt_pow_right one_lt_two hi
        exact Nat.xor_lt_two_pow h1 h2
    have hne : frameTag m nonce pt ≠ flipBit (frameTag m nonce pt) j i := by
      intro heq
      have hgd : (flipBit (frameTag m nonce pt) j i).getD j 0
          = (frameTag m nonce pt).getD j 0 ^^^ 2 ^ i := by
        rw [List.getD_eq_getElem _ _ (by
          simp only [flipBit, List.length_set]
          exact hj')]
        exact List.getElem_set_self _
      have h3 : (frameTag m nonce pt).getD j 0
          = (frameTag m nonce pt).getD j 0 ^^^ 2 ^ i :=
        (congrArg (fun l => l.getD j 0) heq).trans hgd
      have h4 : (frameTag m nonce pt).getD j 0 ^^^ (0 : ℕ)
          = (frameTag m nonce pt).getD j 0 ^^^ 2 ^ i := by
        rw [Nat.xor_zero]
        exact h3
      have h5 : (0 : ℕ) = 2 ^ i := Nat.xor_right_injective h4
      exact (pow_pos (show (0 : ℕ) < 2 by norm_num) i).ne' h5.symm
    have hflipLen : (flipBit (frameTag m nonce pt) j i).length = 16 := by
      simp [flipBit, htagLen]
    have hdecT : decryptFrame b64 m
        { encryptFrame b64 m nonce pt with
          t := b64.enc (flipBit (frameTag m nonce pt) j i) } = none := by
      rw [encryptFrame_eq]
      unfold decryptFrame
      simp only [b64.dec_enc _ hct, b64.dec_enc _ hnonce, b64.dec_enc _ hflipOk]
      rw [aesgcmDecrypt_append_tag m hflipLen]
      rw [if_neg (show m.tagFn nonce (frameCt m nonce pt)
          ≠ flipBit (frameTag m nonce pt) j i from hne)]
    refine ⟨hdecT, ?_⟩
    unfold handleEncryptedFrame
    rw [hdecT]

end TetherCrypto

namespace TetherCrypto

/-- Witness for C6_envelope: the concrete envelope round-trips, and with
bit 0 of tag byte 0 flipped, decryption fails and the frame is dropped. -/
theorem C6_envelope_witness :
    decryptFrame byteCodec gcmZero (encryptFrame byteCodec gcmZero nonceW ptW)
        = some ptW ∧
    decryptFrame byteCodec gcmZero
        { encryptFrame byteCodec gcmZero nonceW ptW with
          t := byteCodec.enc (flipBit (frameTag gcmZero nonceW ptW) 0 0) }
        = none := by
  have h := C6_envelope byteCodec gcmZero nonceW ptW (by unfold ByteOk ptW; decide) (by unfold ByteOk nonceW; decide)
  exact ⟨h.1, (h.2.2 0 0 (by decide) (by decide)).1⟩

end TetherCrypto

namespace BeamVerify

/-- C7: with the signature computed over the original encoded payload,
any received payload whose recomputed HMAC differs (in particular any
tampered payload, even one that still decodes) is rejected 403 before being
decoded or trusted; a correctly signed but undecodable payload is rejected
400 "Corrupt Data Payload"; a correctly signed payload older than its `exp`
is rejected 400 "QR Code Expired"; and a valid unexpired payload returns
its decoded action and context. -/
theorem C7_verify_beam :
    ∀ (hmacHex : String → String)
      (decodePayload : String → Option BeamPayload) (now : ℤ) (orig : String),
      (∀ p', hmacHex p' ≠ hmacHex orig →
        verify_beam hmacHex decodePayload now p' (hmacHex orig)
          = .error (403, "Invalid QR Code Signature")) ∧
      (decodePayload orig = none →
        verify_beam hmacHex decodePayload now orig (hmacHex orig)
          = .error (400, "Corrupt Data Payload")) ∧
      (∀ d, decodePayload orig = some d → now - d.ts > d.exp →
        verify_beam hmacHex decodePayload now orig (hmacHex orig)
          = .error (400, "QR Code Expired")) ∧
      (∀ d, decodePayload orig = some d → ¬(now - d.ts > d.exp) →
        verify_beam hmacHex decodePayload now orig (hmacHex orig)
          = .ok { action := d.action, context := d.context }) := by
  intro hmacHex decodePayload now orig
  refine ⟨?_, ?_, ?_, ?_⟩
  · intro p' hne
    unfold verify_beam
    rw [if_pos hne]
  · intro hdec
    unfold verify_beam
    rw [if_neg (by simp), hdec]
  · intro d hdec hexp
    unfold verify_beam
    rw [if_neg (by simp), hdec]
    simp only [if_pos hexp]
  · intro d hdec hexp
    unfold verify_beam
    rw [if_neg (by simp), hdec]
    simp only [if_neg hexp]

end BeamVerify

namespace BeamVerify

/-- Witness for C7_verify_beam: a tampered payload carrying the original
signature is rejected 403; the original payload, unexpired, verifies. -/
theorem C7_verify_beam_witness :
    verify_beam hmacW decodeW 100 "evil" (hmacW "good")
        = .error (403, "Invalid QR Code Signature") ∧
    verify_beam hmacW decodeW 100 "good" (hmacW "good")
        = .ok { action := "tether", context := "host-token-agent" } := by
  have h := C7_verify_beam hmacW decodeW 100 "good"
  exact ⟨h.1 "evil" (by decide),
    h.2.2.2 { action := "tether", context := "host-token-agent", ts := 0, exp := 300 }
      (by decide) (by decide)⟩

end BeamVerify
